import Mathlib

/-!
The file libavdevice/dvd-dec.c: the DVD navigation loop of `read_header`, and `read_close`.

The navigation engine (libdvdnav) is an external collaborator.  Its answers are
given to the model as data: the answers of the open phase and, for every pass
of the `while (!finished)` loop, the answer of the event pull, the answers of
the queries and commands issued while that event is handled, and the answer of
the cache-block release.  The model records every engine call it issues
(`State.calls`, oldest first) and every message it logs (`State.logs`).
-/

namespace DvdDec

/-! ## Constants -/

/-- The failure value of `dvdnav_status_t`, as declared by `<dvdnav/dvdnav.h>`
(included by the source): `#define DVDNAV_STATUS_ERR 0`. -/
def DVDNAV_STATUS_ERR : Int := 0

/-- The success value of `dvdnav_status_t`, as declared by `<dvdnav/dvdnav.h>`
(included by the source): `#define DVDNAV_STATUS_OK 1`. -/
def DVDNAV_STATUS_OK : Int := 1

/-- Line 34: `#define DVD_READ_CACHE 1`. -/
def DVD_READ_CACHE : Int := 1

/-- Largest value of a C `int` (32 bits): incrementing it is undefined. -/
def INT_MAX : Int := 2147483647

/-- The two `errno` names the source hands to `AVERROR`. -/
inductive Errno where
  | EIO
  | EACCES
  deriving DecidableEq, Repr

open Errno

/-- What `read_header` and `read_close` return: either `AVERROR(e)` (the macro
of libavutil is kept symbolic) or an integer literal of the source. -/
inductive Ret where
  | AVERROR (e : Errno)
  | value (n : Int)
  deriving DecidableEq, Repr

/-! ## Engine answers -/

/-- One entry of `pci->hli.btnit`: the bounding box of a menu button. -/
structure btni_t where
  x_start : Nat
  y_start : Nat
  x_end : Nat
  y_end : Nat
  deriving DecidableEq, Repr, Inhabited

/-- The value of `event` after the pull, classified by the case labels of the
`switch (event)` of lines 104-283, together with the answers the engine gives
to the calls made inside that case.  `unrecognised code` is any value that
matches no case label (the `default:` branch). -/
inductive Event where
  | DVDNAV_BLOCK_OK
  | DVDNAV_NOP
  /-- Here `length` is `still_event->length`; `skip` is what `dvdnav_still_skip` returns. -/
  | DVDNAV_STILL_FRAME (length : Int) (skip : Int)
  /-- Here `skip` is what `dvdnav_wait_skip` returns. -/
  | DVDNAV_WAIT (skip : Int)
  | DVDNAV_SPU_CLUT_CHANGE
  | DVDNAV_SPU_STREAM_CHANGE
  | DVDNAV_AUDIO_STREAM_CHANGE
  /-- Here `buttonN` is `highlight_event->buttonN`. -/
  | DVDNAV_HIGHLIGHT (buttonN : Int)
  /-- Here `res` is what `dvdnav_get_video_resolution` returns, `rawW`, `rawH` what it
  stores in `i_width`, `i_height`; `aspect` is what `dvdnav_get_video_aspect` returns. -/
  | DVDNAV_VTS_CHANGE (res : Int) (rawW rawH : Nat) (aspect : Nat)
  /-- Here `title_info`, `position` are what `dvdnav_current_title_info` and
  `dvdnav_get_position` return; `tt`, `ptt`, `pos`, `len` the values the locals
  of the same names hold after the two calls. -/
  | DVDNAV_CELL_CHANGE (title_info : Int) (tt ptt : Int) (position : Int) (pos len : Int)
  /-- Here `btn_ns` is `pci->hli.hl_gi.btn_ns`, `btnit` is `pci->hli.btnit`;
  `activate` is what `dvdnav_button_select_and_activate` returns. -/
  | DVDNAV_NAV_PACKET (btn_ns : Nat) (btnit : List btni_t) (activate : Int)
  | DVDNAV_HOP_CHANNEL
  | DVDNAV_STOP
  | unrecognised (code : Int)
  deriving DecidableEq, Repr

/-- The engine's answers for one pass of the loop: `result` and `buf` are the
return value of `dvdnav_get_next_cache_block` and the block it stores in `buf`,
`event` the event it stores, `free` the return value of
`dvdnav_free_cache_block`. -/
structure Pull where
  result : Int
  buf : Nat
  event : Event
  free : Int
  deriving DecidableEq, Repr

/-- The engine's answers for a whole run of `read_header`. -/
structure Engine where
  /-- The return value of `dvdnav_open` -/
  open_status : Int
  /-- The value of `dvd->nav_data` after `dvdnav_open` (`none` is `NULL`) -/
  open_nav_data : Option Nat
  /-- The return value of `dvdnav_set_readahead_flag` -/
  readahead : Int
  /-- The return value of `dvdnav_menu_language_select` -/
  menu_language : Int
  /-- The return value of `dvdnav_audio_language_select` -/
  audio_language : Int
  /-- The return value of `dvdnav_spu_language_select` -/
  spu_language : Int
  /-- The return value of `dvdnav_set_PGC_positioning_flag` -/
  pgc_positioning : Int
  /-- The answers of the successive passes of the loop -/
  blocks : List Pull
  deriving Repr

/-! ## Observable effects -/

/-- The engine calls of the source, with the arguments (and, for the two calls
that hand out a resource, the results) that matter. -/
inductive Call where
  | dvdnav_open (status : Int) (nav_data : Option Nat)
  | dvdnav_set_readahead_flag (flag : Int)
  | dvdnav_menu_language_select
  | dvdnav_audio_language_select
  | dvdnav_spu_language_select
  | dvdnav_set_PGC_positioning_flag (flag : Int)
  | dvdnav_close (nav_data : Option Nat)
  | dvdnav_get_next_cache_block (result : Int) (buf : Nat)
  | dvdnav_err_to_string
  | dvdnav_still_skip
  | dvdnav_wait_skip
  | dvdnav_get_video_resolution
  | dvdnav_get_video_aspect
  | dvdnav_current_title_info
  | dvdnav_get_position
  | dvdnav_get_current_nav_pci
  | dvdnav_get_current_nav_dsi
  | dvdnav_button_select_and_activate (button : Int)
  | dvdnav_free_cache_block (buf : Nat)
  deriving DecidableEq, Repr

/-- The messages of the `av_log` and `printf` calls of the source, with the
integers they print.  The one number that is not an integer, the percentage of
line 198, is left out of its message. -/
inductive LogMsg where
  | error_selecting_language
  | error_setting_pgc
  | error_getting_next_block
  | skipping_still (length : Int)
  | skipping_indefinite_still
  | skipping_wait
  | spu_stream_change
  | audio_stream_change
  | selected_button (buttonN : Int)
  | cell_change (tt ptt : Int)
  /-- The message "At position %.0f%% inside the feature" of line 198.  The
  number it prints is the double `100 * (double)pos / (double)len`; that value
  is not modelled, and neither `pos` nor `len` is printed. -/
  | at_position
  | found_buttons (btn_ns : Nat)
  | button_box (number : Nat) (box : btni_t)
  | which_button (btn_ns : Nat)
  | selecting_button (button : Int)
  | stopping_playback
  | unknown_event (code : Int)
  | error_freeing
  | finished
  | closing
  deriving DecidableEq, Repr

/-- The fields of `DVDContext` that the code reads: `nav_data` (`none` is
`NULL`) and `status`.  The fields `cache_buf`, `language` and `sample_rate` are
never read by the code and are left out. -/
structure DVDContext where
  nav_data : Option Nat
  status : Int
  deriving DecidableEq, Repr

/-- The private context, the locals of `read_header` that live across passes of
the loop, and the effects observed so far. -/
structure State where
  dvd : DVDContext
  width : Nat
  height : Nat
  dump : Int
  tt_dump : Int
  finished : Int
  calls : List Call
  logs : List LogMsg
  deriving DecidableEq, Repr

/-- Record an engine call. -/
def State.call (s : State) (c : Call) : State :=
  { s with calls := s.calls ++ [c] }

/-- Record a logged message. -/
def State.log (s : State) (m : LogMsg) : State :=
  { s with logs := s.logs ++ [m] }

/-! ## The code -/

/-- Lines 254-259: `while ((button <= 0) || (button > btn_ns)) { av_log(...); button++; }`.
The first argument counts the increments `button` can still take before it
passes `INT_MAX`; the result is `none` when the loop would overflow `button`. -/
def button_choice : Nat → Nat → Int → List LogMsg → Option (Int × List LogMsg)
  | 0, btn_ns, button, logs =>
    if button ≤ 0 ∨ button > (btn_ns : Int) then none else some (button, logs)
  | fuel + 1, btn_ns, button, logs =>
    if button ≤ 0 ∨ button > (btn_ns : Int) then
      button_choice fuel btn_ns (button + 1) (logs ++ [LogMsg.which_button btn_ns])
    else some (button, logs)

/-- Lines 247-252: the `for` loop that logs the box of every button. -/
def log_buttons (btn_ns : Nat) (btnit : List btni_t) : List LogMsg :=
  (List.range btn_ns).map (fun button => LogMsg.button_box (button + 1) (btnit.getD button default))

/-- Lines 104-283: the `switch (event)`.  The result is `none` only when the
button-choice loop would overflow. -/
def dispatch (s : State) : Event → Option State
  | .DVDNAV_BLOCK_OK => some s
  | .DVDNAV_NOP => some s
  | .DVDNAV_STILL_FRAME length _ =>
    let s1 := if length < 0xff then s.log (.skipping_still length)
              else s.log .skipping_indefinite_still
    some (s1.call .dvdnav_still_skip)
  | .DVDNAV_WAIT _ =>
    some ((s.log .skipping_wait).call .dvdnav_wait_skip)
  | .DVDNAV_SPU_CLUT_CHANGE => some s
  | .DVDNAV_SPU_STREAM_CHANGE => some (s.log .spu_stream_change)
  | .DVDNAV_AUDIO_STREAM_CHANGE => some (s.log .audio_stream_change)
  | .DVDNAV_HIGHLIGHT buttonN => some (s.log (.selected_button buttonN))
  | .DVDNAV_VTS_CHANGE res rawW rawH aspect =>
    let s1 := s.call .dvdnav_get_video_resolution
    let i_width := if res ≠ 0 then 0 else rawW
    let i_height := if res ≠ 0 then 0 else rawH
    let s2 := s1.call .dvdnav_get_video_aspect
    match aspect with
    | 0 => some { s2 with height := (4 * i_height) % 2 ^ 32, width := (3 * i_width) % 2 ^ 32 }
    | 3 => some { s2 with height := (16 * i_height) % 2 ^ 32, width := (9 * i_width) % 2 ^ 32 }
    | _ => some { s2 with height := 0, width := 0 }
  | .DVDNAV_CELL_CHANGE _ tt ptt _ _ _ =>
    let s1 := (s.call .dvdnav_current_title_info).call .dvdnav_get_position
    let s2 := (s1.log (.cell_change tt ptt)).log .at_position
    let dump : Int := 0
    let tt_dump := if s2.tt_dump ≠ 0 ∧ tt ≠ s2.tt_dump then 0 else s2.tt_dump
    let dump := if dump = 0 ∧ tt_dump = 0 then 1 else dump
    some { s2 with dump := dump, tt_dump := tt_dump }
  | .DVDNAV_NAV_PACKET btn_ns btnit _ =>
    let s1 := (s.call .dvdnav_get_current_nav_pci).call .dvdnav_get_current_nav_dsi
    if btn_ns > 0 then
      let s2 := s1.log (.found_buttons btn_ns)
      let logs := s2.logs ++ log_buttons btn_ns btnit
      match button_choice (INT_MAX - 0).toNat btn_ns 0 logs with
      | none => none
      | some (button, logs) =>
        let s3 := { s2 with logs := logs }
        some ((s3.log (.selecting_button button)).call (.dvdnav_button_select_and_activate button))
    else some s1
  | .DVDNAV_HOP_CHANNEL => some s
  | .DVDNAV_STOP =>
    some ({ s with finished := 1 }.log .stopping_playback)
  | .unrecognised code =>
    some { s.log (.unknown_event code) with finished := 1 }

/-- Lines 92-324: the `while (!finished)` loop and what follows it.  Each pass
consumes the engine's answers for one pull.  The result is `none` when the
answers run out while the loop is still running (the loop is then waiting for
the engine) or when a handler does not complete. -/
def read_loop : List Pull → State → Option (Ret × State)
  | [], s => if s.finished ≠ 0 then some (.value 0, s.log .finished) else none
  | p :: rest, s =>
    if s.finished ≠ 0 then some (.value 0, s.log .finished)
    else
      let s1 := s.call (.dvdnav_get_next_cache_block p.result p.buf)
      if p.result = DVDNAV_STATUS_ERR then
        some (.value 3, (s1.call .dvdnav_err_to_string).log .error_getting_next_block)
      else
        match dispatch s1 p.event with
        | none => none
        | some s2 =>
          let s3 := s2.call (.dvdnav_free_cache_block p.buf)
          if p.free ≠ DVDNAV_STATUS_OK then some (.value 5, s3.log .error_freeing)
          else read_loop rest s3

/-- Lines 49-325: `read_header`. -/
def read_header (e : Engine) : Option (Ret × State) :=
  let s0 : State :=
    { dvd := { nav_data := e.open_nav_data, status := e.open_status },
      width := 0, height := 0, dump := 0, tt_dump := 0, finished := 0,
      calls := [.dvdnav_open e.open_status e.open_nav_data], logs := [] }
  if e.open_status ≠ DVDNAV_STATUS_OK then some (.AVERROR EIO, s0)
  else
    let s1 := s0.call (.dvdnav_set_readahead_flag DVD_READ_CACHE)
    if e.readahead ≠ DVDNAV_STATUS_OK then
      some (.AVERROR EACCES, s1.call (.dvdnav_close s1.dvd.nav_data))
    else
      let s2 := s1.call .dvdnav_menu_language_select
      if e.menu_language ≠ DVDNAV_STATUS_OK then
        some (.AVERROR EACCES, s2.log .error_selecting_language)
      else
        let s3 := s2.call .dvdnav_audio_language_select
        if e.audio_language ≠ DVDNAV_STATUS_OK then
          some (.AVERROR EACCES, s3.log .error_selecting_language)
        else
          let s4 := s3.call .dvdnav_spu_language_select
          if e.spu_language ≠ DVDNAV_STATUS_OK then
            some (.AVERROR EACCES, s4.log .error_selecting_language)
          else
            let s5 := s4.call (.dvdnav_set_PGC_positioning_flag 0)
            if e.pgc_positioning ≠ DVDNAV_STATUS_OK then
              some (.AVERROR EACCES,
                (s5.log .error_setting_pgc).call (.dvdnav_close s5.dvd.nav_data))
            else read_loop e.blocks s5

/-- Lines 332-340: `read_close`. -/
def read_close (s : State) : Ret × State :=
  let s1 := s.log .closing
  if s1.dvd.status ≠ 0 ∧ s1.dvd.nav_data ≠ none then
    (.value 0, s1.call (.dvdnav_close s1.dvd.nav_data))
  else (.value 0, s1)

/-! ## Observers of the call record -/

/-- A pull that handed out a cache block: `dvdnav_get_next_cache_block`
returning `DVDNAV_STATUS_OK`. -/
def Call.isAcquire : Call → Bool
  | .dvdnav_get_next_cache_block result _ => decide (result = DVDNAV_STATUS_OK)
  | _ => false

/-- A call of `dvdnav_free_cache_block`. -/
def Call.isRelease : Call → Bool
  | .dvdnav_free_cache_block _ => true
  | _ => false

/-- A call of `dvdnav_get_next_cache_block` or `dvdnav_free_cache_block`. -/
def Call.isLease : Call → Bool
  | .dvdnav_get_next_cache_block _ _ => true
  | .dvdnav_free_cache_block _ => true
  | _ => false

/-- Number of successful `dvdnav_get_next_cache_block` calls in a record. -/
def acquired (cs : List Call) : Nat := cs.countP Call.isAcquire

/-- Number of `dvdnav_free_cache_block` calls in a record. -/
def released (cs : List Call) : Nat := cs.countP Call.isRelease

/-- One step of the lease protocol.  `some none`: no block is held;
`some (some b)`: block `b` is held; `none`: the protocol was broken (a pull
while a block is held, a release of a block that is not the one held). -/
def leaseStep : Option (Option Nat) → Call → Option (Option Nat)
  | some none, .dvdnav_get_next_cache_block result buf =>
    if result = DVDNAV_STATUS_OK then some (some buf) else some none
  | some (some _), .dvdnav_get_next_cache_block _ _ => none
  | some (some b), .dvdnav_free_cache_block buf => if b = buf then some none else none
  | some none, .dvdnav_free_cache_block _ => none
  | st, _ => st

/-- The lease protocol run over a whole record, starting with no block held.
The result `some none` says: every block was released exactly once, before the
next pull, and none is held at the end. -/
def leaseRun (cs : List Call) : Option (Option Nat) := cs.foldl leaseStep (some none)

/-- The engine calls the `switch` issues for an event (see `dispatch_calls`). -/
def handler_calls : Event → List Call
  | .DVDNAV_STILL_FRAME _ _ => [.dvdnav_still_skip]
  | .DVDNAV_WAIT _ => [.dvdnav_wait_skip]
  | .DVDNAV_VTS_CHANGE _ _ _ _ => [.dvdnav_get_video_resolution, .dvdnav_get_video_aspect]
  | .DVDNAV_CELL_CHANGE _ _ _ _ _ _ => [.dvdnav_current_title_info, .dvdnav_get_position]
  | .DVDNAV_NAV_PACKET btn_ns _ _ =>
    if btn_ns > 0 then
      [.dvdnav_get_current_nav_pci, .dvdnav_get_current_nav_dsi,
        .dvdnav_button_select_and_activate 1]
    else [.dvdnav_get_current_nav_pci, .dvdnav_get_current_nav_dsi]
  | _ => []

/-- Whether the `switch` ends the loop on this event: `DVDNAV_STOP` and the
`default:` branch do. -/
def Event.stops : Event → Bool
  | .DVDNAV_STOP => true
  | .unrecognised _ => true
  | _ => false

/-- The calls of one complete pass: the pull, the calls of the handler, the release. -/
def pass_calls (p : Pull) : List Call :=
  [Call.dvdnav_get_next_cache_block p.result p.buf] ++ handler_calls p.event
    ++ [Call.dvdnav_free_cache_block p.buf]

/-- The state in which the loop is entered when the whole open phase succeeded
(see `read_header_configured`). -/
def configured (e : Engine) : State :=
  { dvd := { nav_data := e.open_nav_data, status := e.open_status },
    width := 0, height := 0, dump := 0, tt_dump := 0, finished := 0,
    calls := [.dvdnav_open e.open_status e.open_nav_data,
      .dvdnav_set_readahead_flag DVD_READ_CACHE, .dvdnav_menu_language_select,
      .dvdnav_audio_language_select, .dvdnav_spu_language_select,
      .dvdnav_set_PGC_positioning_flag 0],
    logs := [] }

/-- The button indexes carried by the `dvdnav_button_select_and_activate`
calls of a record, in order. -/
def activations (cs : List Call) : List Int :=
  cs.filterMap (fun c =>
    match c with
    | .dvdnav_button_select_and_activate button => some button
    | _ => none)

/-- An engine whose open phase succeeds on every call, with the given answers
for the loop. -/
def okEngine (blocks : List Pull) : Engine :=
  { open_status := 1, open_nav_data := some 1, readahead := 1, menu_language := 1,
    audio_language := 1, spu_language := 1, pgc_positioning := 1, blocks := blocks }

/-- The `(tt, ptt)` pairs of the "Cell change" messages of a log, in order. -/
def reportedCells (logs : List LogMsg) : List (Int × Int) :=
  logs.filterMap (fun m =>
    match m with
    | .cell_change tt ptt => some (tt, ptt)
    | _ => none)

/-- The end-to-end run: a 4:3 `DVDNAV_VTS_CHANGE` with raw 720 x 480, a
`DVDNAV_CELL_CHANGE` at title 1, part 1, position 0 of 1000, three
`DVDNAV_BLOCK_OK` and `DVDNAV_STOP`, every engine call succeeding. -/
def scenario : Engine :=
  okEngine
    [⟨1, 1, .DVDNAV_VTS_CHANGE 0 720 480 0, 1⟩,
     ⟨1, 2, .DVDNAV_CELL_CHANGE 1 1 1 1 0 1000, 1⟩,
     ⟨1, 3, .DVDNAV_BLOCK_OK, 1⟩,
     ⟨1, 4, .DVDNAV_BLOCK_OK, 1⟩,
     ⟨1, 5, .DVDNAV_BLOCK_OK, 1⟩,
     ⟨1, 6, .DVDNAV_STOP, 1⟩]

/-- Whether a record leaves the engine session open: the last `dvdnav_open` or
`dvdnav_close` in it is a successful `dvdnav_open`. -/
def sessionOpen (cs : List Call) : Bool :=
  cs.foldl (fun st c =>
    match c with
    | .dvdnav_open status _ => decide (status = DVDNAV_STATUS_OK)
    | .dvdnav_close _ => false
    | _ => st) false

/-- The `dvdnav_close` calls of a record. -/
def closes (cs : List Call) : List Call :=
  cs.filter (fun c =>
    match c with
    | .dvdnav_close _ => true
    | _ => false)

/-- The seven event kinds whose case of the `switch` is empty or only logs. -/
def Event.passive : Event → Bool
  | .DVDNAV_BLOCK_OK => true
  | .DVDNAV_NOP => true
  | .DVDNAV_SPU_CLUT_CHANGE => true
  | .DVDNAV_SPU_STREAM_CHANGE => true
  | .DVDNAV_AUDIO_STREAM_CHANGE => true
  | .DVDNAV_HIGHLIGHT _ => true
  | .DVDNAV_HOP_CHANNEL => true
  | _ => false

/-- The state in which a pass that returns neither 3 nor 5 leaves the loop:
the pull, the `switch`, the release (see `read_loop_passes`). -/
def pass_state (s : State) (p : Pull) : State :=
  match dispatch (s.call (.dvdnav_get_next_cache_block p.result p.buf)) p.event with
  | some s2 => s2.call (.dvdnav_free_cache_block p.buf)
  | none => s

/-- The blocks stored in `buf` by the `dvdnav_get_next_cache_block` calls of a
record, in order. -/
def pulled (cs : List Call) : List Nat :=
  cs.filterMap (fun c =>
    match c with
    | .dvdnav_get_next_cache_block _ buf => some buf
    | _ => none)

/-- The aspect mapping in the words of the specification, as `(width, height)`:
both zero when the resolution query failed (`res` nonzero); `3 * rawW`,
`4 * rawH` for 4:3 (code 0); `9 * rawW`, `16 * rawH` for 16:9 (code 3); both
zero for any other class.  Products are 32-bit unsigned. -/
def aspect_mapping (res : Int) (rawW rawH aspect : Nat) : Nat × Nat :=
  if res ≠ 0 then (0, 0)
  else if aspect = 0 then ((3 * rawW) % 2 ^ 32, (4 * rawH) % 2 ^ 32)
  else if aspect = 3 then ((9 * rawW) % 2 ^ 32, (16 * rawH) % 2 ^ 32)
  else (0, 0)

/-- The geometry a single event establishes: the aspect mapping of its query
results for `DVDNAV_VTS_CHANGE`, nothing for any other event. -/
def vts_geometry : Event → Option (Nat × Nat)
  | .DVDNAV_VTS_CHANGE res rawW rawH aspect => some (aspect_mapping res rawW rawH aspect)
  | _ => none

/-- The geometry established by the last `DVDNAV_VTS_CHANGE` of a sequence of
events; `none` when the sequence has no `DVDNAV_VTS_CHANGE`. -/
def last_vts_geometry : List Event → Option (Nat × Nat)
  | [] => none
  | ev :: evs =>
    match last_vts_geometry evs with
    | some g => some g
    | none => vts_geometry ev

/-- Sample answers: two continuing passes, a block and a wait. -/
def sample_head : List Pull :=
  [⟨1, 1, .DVDNAV_BLOCK_OK, 1⟩, ⟨1, 2, .DVDNAV_WAIT 1, 1⟩]

/-- Sample answers: three continuing passes, a 4:3 `DVDNAV_VTS_CHANGE` at
720 x 480, a 16:9 one at 704 x 576, a block. -/
def sample_vts : List Pull :=
  [⟨1, 1, .DVDNAV_VTS_CHANGE 0 720 480 0, 1⟩, ⟨1, 2, .DVDNAV_VTS_CHANGE 0 704 576 3, 1⟩,
    ⟨1, 3, .DVDNAV_BLOCK_OK, 1⟩]

/-- Sample answer: a successful pass on `DVDNAV_STOP`. -/
def sample_stop : Pull := ⟨1, 4, .DVDNAV_STOP, 1⟩

/-- Sample answers the loop never gets to. -/
def sample_tail : List Pull :=
  [⟨1, 5, .DVDNAV_BLOCK_OK, 1⟩, ⟨1, 6, .DVDNAV_STOP, 1⟩]

/-! ## Lemmas on the handlers -/

@[simp] theorem State.call_calls (s : State) (c : Call) : (s.call c).calls = s.calls ++ [c] := rfl

@[simp] theorem State.call_logs (s : State) (c : Call) : (s.call c).logs = s.logs := rfl

@[simp] theorem State.call_finished (s : State) (c : Call) : (s.call c).finished = s.finished := rfl

@[simp] theorem State.call_width (s : State) (c : Call) : (s.call c).width = s.width := rfl

@[simp] theorem State.call_height (s : State) (c : Call) : (s.call c).height = s.height := rfl

@[simp] theorem State.call_dvd (s : State) (c : Call) : (s.call c).dvd = s.dvd := rfl

@[simp] theorem State.call_dump (s : State) (c : Call) : (s.call c).dump = s.dump := rfl

@[simp] theorem State.call_tt_dump (s : State) (c : Call) : (s.call c).tt_dump = s.tt_dump := rfl

@[simp] theorem State.log_calls (s : State) (m : LogMsg) : (s.log m).calls = s.calls := rfl

@[simp] theorem State.log_logs (s : State) (m : LogMsg) : (s.log m).logs = s.logs ++ [m] := rfl

@[simp] theorem State.log_finished (s : State) (m : LogMsg) : (s.log m).finished = s.finished := rfl

@[simp] theorem State.log_width (s : State) (m : LogMsg) : (s.log m).width = s.width := rfl

@[simp] theorem State.log_height (s : State) (m : LogMsg) : (s.log m).height = s.height := rfl

@[simp] theorem State.log_dvd (s : State) (m : LogMsg) : (s.log m).dvd = s.dvd := rfl

@[simp] theorem State.log_dump (s : State) (m : LogMsg) : (s.log m).dump = s.dump := rfl

@[simp] theorem State.log_tt_dump (s : State) (m : LogMsg) : (s.log m).tt_dump = s.tt_dump := rfl

/-- From `button = 0` and with at least one button, the button-choice loop makes
one pass and leaves `button = 1`. -/
theorem button_choice_first (btn_ns : Nat) (h : 0 < btn_ns) (logs : List LogMsg) :
    button_choice INT_MAX.toNat btn_ns 0 logs
      = some (1, logs ++ [LogMsg.which_button btn_ns]) := by
  have hfuel : INT_MAX.toNat = 2147483645 + 1 + 1 := by decide
  have h1 : ¬ ((1 : Int) > (btn_ns : Int)) := by omega
  rw [hfuel]
  simp [button_choice, h1]

/-- The `DVDNAV_NAV_PACKET` case with at least one button, computed. -/
theorem dispatch_nav_packet (s : State) (btn_ns : Nat) (btnit : List btni_t) (act : Int)
    (h : 0 < btn_ns) :
    dispatch s (.DVDNAV_NAV_PACKET btn_ns btnit act)
      = some { s with
          calls := s.calls ++ [.dvdnav_get_current_nav_pci, .dvdnav_get_current_nav_dsi,
            .dvdnav_button_select_and_activate 1],
          logs := s.logs ++ [.found_buttons btn_ns] ++ log_buttons btn_ns btnit
            ++ [.which_button btn_ns, .selecting_button 1] } := by
  simp [dispatch, h, button_choice_first, State.call, State.log]

/-- The `DVDNAV_NAV_PACKET` case without buttons, computed. -/
theorem dispatch_nav_packet_zero (s : State) (btnit : List btni_t) (act : Int) :
    dispatch s (.DVDNAV_NAV_PACKET 0 btnit act)
      = some { s with
          calls := s.calls ++ [.dvdnav_get_current_nav_pci, .dvdnav_get_current_nav_dsi] } := by
  simp [dispatch, State.call]

/-- The `switch` completes for every event. -/
theorem dispatch_total (s : State) (ev : Event) : ∃ s2, dispatch s ev = some s2 := by
  cases ev <;> simp [dispatch]
  case DVDNAV_VTS_CHANGE res w h aspect => split <;> simp
  case DVDNAV_NAV_PACKET btn_ns btnit act =>
    by_cases hb : 0 < btn_ns
    · simp [hb, button_choice_first]
    · simp [hb]

/-- The `switch` issues exactly the calls of `handler_calls`, after those already made. -/
theorem dispatch_calls (s s2 : State) (ev : Event) (h : dispatch s ev = some s2) :
    s2.calls = s.calls ++ handler_calls ev := by
  cases ev <;> simp [dispatch] at h <;> try (subst h; simp [handler_calls])
  case DVDNAV_STILL_FRAME len sk => split <;> simp
  case DVDNAV_VTS_CHANGE res w hh aspect =>
    split at h <;> simp at h <;> subst h <;> simp [handler_calls]
  case DVDNAV_NAV_PACKET btn_ns btnit act =>
    by_cases hb : 0 < btn_ns
    · simp [hb, button_choice_first] at h
      subst h
      simp [handler_calls, hb]
    · simp [hb] at h
      subst h
      simp [handler_calls, hb]

/-- The `switch` leaves the private context alone. -/
theorem dispatch_dvd (s s2 : State) (ev : Event) (h : dispatch s ev = some s2) :
    s2.dvd = s.dvd := by
  cases ev <;> simp [dispatch] at h <;> try (subst h; simp)
  case DVDNAV_STILL_FRAME len sk => split <;> simp
  case DVDNAV_VTS_CHANGE res w hh aspect =>
    split at h <;> simp at h <;> subst h <;> simp
  case DVDNAV_NAV_PACKET btn_ns btnit act =>
    by_cases hb : 0 < btn_ns
    · simp [hb, button_choice_first] at h
      subst h
      simp
    · simp [hb] at h
      subst h
      simp

/-- The `switch` sets `finished = 1` on `DVDNAV_STOP` and in the `default:`
branch, and leaves it alone otherwise. -/
theorem dispatch_finished (s s2 : State) (ev : Event) (h : dispatch s ev = some s2) :
    s2.finished = if ev.stops then 1 else s.finished := by
  cases ev <;> simp [dispatch] at h <;> try (subst h; simp [Event.stops])
  case DVDNAV_STILL_FRAME len sk => split <;> simp
  case DVDNAV_VTS_CHANGE res w hh aspect =>
    split at h <;> simp at h <;> subst h <;> simp [Event.stops]
  case DVDNAV_NAV_PACKET btn_ns btnit act =>
    by_cases hb : 0 < btn_ns
    · simp [hb, button_choice_first] at h
      subst h
      simp [Event.stops]
    · simp [hb] at h
      subst h
      simp [Event.stops]

/-! ## Lemmas on the loop -/

/-- Once `finished` is set the loop is left and `read_header` returns 0,
whatever the engine would still answer. -/
theorem read_loop_finished (ps : List Pull) (s : State) (hf : s.finished ≠ 0) :
    read_loop ps s = some (.value 0, s.log .finished) := by
  cases ps <;> simp [read_loop, hf]

/-- One pass of the loop whose pull does not fail and whose release succeeds. -/
theorem read_loop_pass (p : Pull) (rest : List Pull) (s s2 : State)
    (hf : s.finished = 0) (hr : p.result ≠ DVDNAV_STATUS_ERR)
    (hfree : p.free = DVDNAV_STATUS_OK)
    (hd : dispatch (s.call (.dvdnav_get_next_cache_block p.result p.buf)) p.event = some s2) :
    read_loop (p :: rest) s = read_loop rest (s2.call (.dvdnav_free_cache_block p.buf)) := by
  simp [read_loop, hf, hr, hd, hfree]

theorem leaseStep_neutral (st : Option (Option Nat)) (c : Call) (h : c.isLease = false) :
    leaseStep st c = st := by
  cases c <;> simp [Call.isLease] at h <;> simp [leaseStep]

theorem foldl_leaseStep_neutral (cs : List Call) (h : ∀ c ∈ cs, c.isLease = false)
    (st : Option (Option Nat)) : cs.foldl leaseStep st = st := by
  induction cs generalizing st with
  | nil => rfl
  | cons c cs ih =>
    simp only [List.foldl_cons]
    rw [leaseStep_neutral st c (h c (by simp))]
    exact ih (fun c hc => h c (by simp [hc])) st

theorem handler_calls_neutral (ev : Event) : ∀ c ∈ handler_calls ev, c.isLease = false := by
  cases ev <;> simp [handler_calls, Call.isLease]
  case DVDNAV_NAV_PACKET btn_ns btnit act =>
    intro c hc
    split at hc <;> simp at hc <;> rcases hc with h | h <;> try (subst h; rfl)
    rcases h with h | h <;> subst h <;> rfl

theorem acquired_handler_calls (ev : Event) : acquired (handler_calls ev) = 0 := by
  simp only [acquired, List.countP_eq_zero]
  intro c hc
  have := handler_calls_neutral ev c hc
  cases c <;> simp [Call.isLease] at this <;> simp [Call.isAcquire]

theorem released_handler_calls (ev : Event) : released (handler_calls ev) = 0 := by
  simp only [released, List.countP_eq_zero]
  intro c hc
  have := handler_calls_neutral ev c hc
  cases c <;> simp [Call.isLease] at this <;> simp [Call.isRelease]

theorem acquired_append (a b : List Call) : acquired (a ++ b) = acquired a + acquired b := by
  simp [acquired, List.countP_append]

theorem released_append (a b : List Call) : released (a ++ b) = released a + released b := by
  simp [released, List.countP_append]

theorem pass_calls_lease (p : Pull) (hr : p.result = DVDNAV_STATUS_OK) :
    (pass_calls p).foldl leaseStep (some none) = some none
      ∧ acquired (pass_calls p) = 1 ∧ released (pass_calls p) = 1 := by
  refine ⟨?_, ?_, ?_⟩
  · simp only [pass_calls, List.foldl_append, List.foldl_cons, List.foldl_nil]
    rw [show leaseStep (some none) (Call.dvdnav_get_next_cache_block p.result p.buf)
        = some (some p.buf) by simp [leaseStep, hr]]
    rw [foldl_leaseStep_neutral _ (handler_calls_neutral p.event)]
    simp [leaseStep]
  · rw [pass_calls, acquired_append, acquired_append, acquired_handler_calls]
    simp [acquired, Call.isAcquire, hr]
  · rw [pass_calls, released_append, released_append, released_handler_calls]
    simp [released, Call.isRelease]

/-- The loop, started running on answers that all report success and that
contain a `DVDNAV_STOP`, ends with `finished = 1` and result 0; the calls it
adds keep the lease protocol and pair every pull with a release. -/
theorem read_loop_stop (ps : List Pull)
    (hok : ∀ p ∈ ps, p.result = DVDNAV_STATUS_OK ∧ p.free = DVDNAV_STATUS_OK)
    (hstop : ∃ p ∈ ps, p.event = Event.DVDNAV_STOP) (s : State) (hf : s.finished = 0) :
    ∃ s2 cs, read_loop ps s = some (.value 0, s2) ∧ s2.finished = 1
      ∧ s2.calls = s.calls ++ cs ∧ released cs = acquired cs
      ∧ cs.foldl leaseStep (some none) = some none := by
  induction ps generalizing s with
  | nil => simp at hstop
  | cons p rest ih =>
    obtain ⟨hr, hfree⟩ := hok p (by simp)
    obtain ⟨s2, hd⟩ := dispatch_total (s.call (.dvdnav_get_next_cache_block p.result p.buf)) p.event
    have hne : p.result ≠ DVDNAV_STATUS_ERR := by rw [hr]; decide
    rw [read_loop_pass p rest s s2 hf hne hfree hd]
    have hcalls : (s2.call (.dvdnav_free_cache_block p.buf)).calls = s.calls ++ pass_calls p := by
      simp [dispatch_calls _ _ _ hd, pass_calls]
    have hfin := dispatch_finished _ _ _ hd
    obtain ⟨hl, ha, hrel⟩ := pass_calls_lease p hr
    by_cases hs : p.event.stops = true
    · have hf2 : (s2.call (.dvdnav_free_cache_block p.buf)).finished = 1 := by
        simp [hfin, hs]
      refine ⟨_, pass_calls p, read_loop_finished rest _ (by rw [hf2]; decide), ?_, ?_, ?_, hl⟩
      · simpa using hf2
      · simpa using hcalls
      · rw [ha, hrel]
    · have hf2 : (s2.call (.dvdnav_free_cache_block p.buf)).finished = 0 := by
        simp [hfin, hs, hf]
      have hstop2 : ∃ q ∈ rest, q.event = Event.DVDNAV_STOP := by
        obtain ⟨q, hq, hqe⟩ := hstop
        rcases List.mem_cons.mp hq with h | h
        · subst h
          rw [hqe] at hs
          exact absurd rfl hs
        · exact ⟨q, h, hqe⟩
      obtain ⟨s3, cs, hrun, hfin3, hc3, hcount, hlease⟩ :=
        ih (fun q hq => hok q (by simp [hq])) hstop2 _ hf2
      refine ⟨s3, pass_calls p ++ cs, hrun, hfin3, ?_, ?_, ?_⟩
      · rw [hc3, hcalls, List.append_assoc]
      · rw [released_append, acquired_append, ha, hrel, hcount]
      · rw [List.foldl_append, hl, hlease]

/-- Passes that let the loop continue (pull not failing, release succeeding,
event neither `DVDNAV_STOP` nor unrecognised) are run through one by one: the
loop is then still running, the context is untouched, and the calls made are
those of the passes, in order. -/
theorem read_loop_prefix (pre : List Pull)
    (hpre : ∀ p ∈ pre, p.result ≠ DVDNAV_STATUS_ERR ∧ p.free = DVDNAV_STATUS_OK
      ∧ p.event.stops = false)
    (s : State) (hf : s.finished = 0) :
    ∃ s2, s2.finished = 0 ∧ s2.dvd = s.dvd ∧ s2.calls = s.calls ++ pre.flatMap pass_calls
      ∧ ∀ tail, read_loop (pre ++ tail) s = read_loop tail s2 := by
  induction pre generalizing s with
  | nil => exact ⟨s, hf, rfl, by simp, fun _ => rfl⟩
  | cons p pre ih =>
    obtain ⟨hr, hfree, hs⟩ := hpre p (by simp)
    obtain ⟨s2, hd⟩ := dispatch_total (s.call (.dvdnav_get_next_cache_block p.result p.buf)) p.event
    have hf2 : (s2.call (.dvdnav_free_cache_block p.buf)).finished = 0 := by
      simpa [hs, hf] using dispatch_finished _ _ _ hd
    obtain ⟨s3, hf3, hdvd3, hc3, hrun3⟩ := ih (fun q hq => hpre q (by simp [hq])) _ hf2
    refine ⟨s3, hf3, ?_, ?_, ?_⟩
    · rw [hdvd3]
      simpa using dispatch_dvd _ _ _ hd
    · rw [hc3]
      simp [dispatch_calls _ _ _ hd, pass_calls]
    · intro tail
      rw [List.cons_append, read_loop_pass p (pre ++ tail) s s2 hf hr hfree hd]
      exact hrun3 tail

/-- When every call of the open phase succeeds, `read_header` enters the loop
in the state `configured e`. -/
theorem read_header_configured (e : Engine)
    (hopen : e.open_status = DVDNAV_STATUS_OK) (hra : e.readahead = DVDNAV_STATUS_OK)
    (hmenu : e.menu_language = DVDNAV_STATUS_OK) (haudio : e.audio_language = DVDNAV_STATUS_OK)
    (hspu : e.spu_language = DVDNAV_STATUS_OK) (hpgc : e.pgc_positioning = DVDNAV_STATUS_OK) :
    read_header e = read_loop e.blocks (configured e) := by
  simp [read_header, configured, State.call, hopen, hra, hmenu, haudio, hspu, hpgc]

/-- A pass on an event that is neither `DVDNAV_STOP` nor unrecognised, with a
pull that does not fail and a successful release, leaves `finished = 0` and
goes on with the engine's next answer. -/
theorem read_loop_continues (s : State) (rest : List Pull) (result : Int) (buf : Nat)
    (ev : Event) (hf : s.finished = 0) (hr : result ≠ DVDNAV_STATUS_ERR)
    (hs : ev.stops = false) :
    ∃ s2, dispatch (s.call (.dvdnav_get_next_cache_block result buf)) ev = some s2
      ∧ s2.finished = 0
      ∧ read_loop (⟨result, buf, ev, DVDNAV_STATUS_OK⟩ :: rest) s
          = read_loop rest (s2.call (.dvdnav_free_cache_block buf)) := by
  obtain ⟨s2, hd⟩ := dispatch_total (s.call (.dvdnav_get_next_cache_block result buf)) ev
  refine ⟨s2, hd, ?_, read_loop_pass ⟨result, buf, ev, DVDNAV_STATUS_OK⟩ rest s s2 hf hr rfl hd⟩
  simpa [hs, hf] using dispatch_finished _ _ _ hd

/-- The calls of a run of passes whose pulls all succeed keep the lease protocol
and pair every pull with a release. -/
theorem passes_calls_lease (pre : List Pull)
    (hpre : ∀ q ∈ pre, q.result = DVDNAV_STATUS_OK) :
    (pre.flatMap pass_calls).foldl leaseStep (some none) = some none
      ∧ acquired (pre.flatMap pass_calls) = pre.length
      ∧ released (pre.flatMap pass_calls) = pre.length := by
  induction pre with
  | nil => exact ⟨rfl, rfl, rfl⟩
  | cons q pre ih =>
    obtain ⟨hl, ha, hrel⟩ := pass_calls_lease q (hpre q (by simp))
    obtain ⟨hl2, ha2, hrel2⟩ := ih (fun r hr => hpre r (by simp [hr]))
    refine ⟨?_, ?_, ?_⟩
    · rw [List.flatMap_cons, List.foldl_append, hl, hl2]
    · rw [List.flatMap_cons, acquired_append, ha, ha2, List.length_cons, Nat.add_comm]
    · rw [List.flatMap_cons, released_append, hrel, hrel2, List.length_cons, Nat.add_comm]

theorem pass_state_of_dispatch (s s2 : State) (p : Pull)
    (hd : dispatch (s.call (.dvdnav_get_next_cache_block p.result p.buf)) p.event = some s2) :
    pass_state s p = s2.call (.dvdnav_free_cache_block p.buf) := by
  simp [pass_state, hd]

/-- Passes that let the loop continue are run through one by one, each leaving
the loop in the state `pass_state` gives. -/
theorem read_loop_passes (pre : List Pull)
    (hpre : ∀ p ∈ pre, p.result ≠ DVDNAV_STATUS_ERR ∧ p.free = DVDNAV_STATUS_OK
      ∧ p.event.stops = false)
    (s : State) (hf : s.finished = 0) :
    (pre.foldl pass_state s).finished = 0
      ∧ ∀ tail, read_loop (pre ++ tail) s = read_loop tail (pre.foldl pass_state s) := by
  induction pre generalizing s with
  | nil => exact ⟨hf, fun _ => rfl⟩
  | cons p pre ih =>
    obtain ⟨hr, hfree, hs⟩ := hpre p (by simp)
    obtain ⟨s2, hd⟩ := dispatch_total (s.call (.dvdnav_get_next_cache_block p.result p.buf)) p.event
    have hps := pass_state_of_dispatch s s2 p hd
    have hf2 : (pass_state s p).finished = 0 := by
      rw [hps]
      simpa [hs, hf] using dispatch_finished _ _ _ hd
    obtain ⟨hf3, hrun3⟩ := ih (fun q hq => hpre q (by simp [hq])) _ hf2
    refine ⟨by simpa using hf3, ?_⟩
    intro tail
    rw [List.cons_append, read_loop_pass p (pre ++ tail) s s2 hf hr hfree hd, ← hps]
    exact hrun3 tail

/-- A run of continuing passes followed by a successful pass on `DVDNAV_STOP` or
on an unrecognised event: `read_header` leaves the loop after that pass and
returns 0; what the engine would answer afterwards plays no part. -/
theorem read_loop_run_to_stop (pre rest : List Pull) (last : Pull)
    (hpre : ∀ p ∈ pre, p.result ≠ DVDNAV_STATUS_ERR ∧ p.free = DVDNAV_STATUS_OK
      ∧ p.event.stops = false)
    (hlast : last.result ≠ DVDNAV_STATUS_ERR ∧ last.free = DVDNAV_STATUS_OK
      ∧ last.event.stops = true)
    (s : State) (hf : s.finished = 0) :
    read_loop (pre ++ last :: rest) s
      = some (.value 0, ((pre ++ [last]).foldl pass_state s).log .finished) := by
  obtain ⟨hf1, hrun⟩ := read_loop_passes pre hpre s hf
  obtain ⟨hr, hfree, hs⟩ := hlast
  obtain ⟨s2, hd⟩ := dispatch_total
    ((pre.foldl pass_state s).call (.dvdnav_get_next_cache_block last.result last.buf)) last.event
  rw [hrun, read_loop_pass last rest _ s2 hf1 hr hfree hd, List.foldl_append, List.foldl_cons,
    List.foldl_nil, pass_state_of_dispatch _ s2 last hd]
  refine read_loop_finished rest _ ?_
  have := dispatch_finished _ _ _ hd
  simp [this, hs]

/-- The calls of any run of passes are those of `pass_calls`, in order. -/
theorem foldl_pass_state_calls (ps : List Pull) (s : State) :
    (ps.foldl pass_state s).calls = s.calls ++ ps.flatMap pass_calls := by
  induction ps generalizing s with
  | nil => simp
  | cons p ps ih =>
    obtain ⟨s2, hd⟩ := dispatch_total (s.call (.dvdnav_get_next_cache_block p.result p.buf)) p.event
    rw [List.foldl_cons, ih, pass_state_of_dispatch s s2 p hd]
    simp [dispatch_calls _ _ _ hd, pass_calls]

/-- The `switch` writes the geometry on `DVDNAV_VTS_CHANGE` only, and then
writes the aspect mapping of the query results. -/
theorem dispatch_geometry (s s2 : State) (ev : Event) (h : dispatch s ev = some s2) :
    (s2.width, s2.height) = (vts_geometry ev).getD (s.width, s.height) := by
  cases ev <;> simp [dispatch] at h <;> try (subst h; simp [vts_geometry])
  case DVDNAV_STILL_FRAME len sk => split <;> simp
  case DVDNAV_VTS_CHANGE res w hh aspect =>
    by_cases hres : res = 0
    · match aspect with
      | 0 => simp [hres] at h; subst h; simp [vts_geometry, aspect_mapping, hres]
      | 1 => simp [hres] at h; subst h; simp [vts_geometry, aspect_mapping, hres]
      | 2 => simp [hres] at h; subst h; simp [vts_geometry, aspect_mapping, hres]
      | 3 => simp [hres] at h; subst h; simp [vts_geometry, aspect_mapping, hres]
      | n + 4 => simp [hres] at h; subst h; simp [vts_geometry, aspect_mapping, hres]
    · split at h <;> simp [hres] at h <;> subst h <;> simp [vts_geometry, aspect_mapping, hres]
  case DVDNAV_NAV_PACKET btn_ns btnit act =>
    by_cases hb : 0 < btn_ns
    · simp [hb, button_choice_first] at h
      subst h
      simp [vts_geometry]
    · simp [hb] at h
      subst h
      simp [vts_geometry]

theorem pass_state_geometry (s : State) (p : Pull) :
    ((pass_state s p).width, (pass_state s p).height)
      = (vts_geometry p.event).getD (s.width, s.height) := by
  obtain ⟨s2, hd⟩ := dispatch_total (s.call (.dvdnav_get_next_cache_block p.result p.buf)) p.event
  rw [pass_state_of_dispatch s s2 p hd]
  simpa using dispatch_geometry _ _ _ hd

/-- After any run of passes the geometry is the one of the last
`DVDNAV_VTS_CHANGE` among them, or the initial one when there is none. -/
theorem foldl_pass_state_geometry (ps : List Pull) (s : State) :
    ((ps.foldl pass_state s).width, (ps.foldl pass_state s).height)
      = (last_vts_geometry (ps.map Pull.event)).getD (s.width, s.height) := by
  induction ps generalizing s with
  | nil => rfl
  | cons p ps ih =>
    rw [List.foldl_cons, ih, pass_state_geometry, List.map_cons]
    simp only [last_vts_geometry]
    cases last_vts_geometry (ps.map Pull.event) <;> rfl

theorem pulled_append (a b : List Call) : pulled (a ++ b) = pulled a ++ pulled b := by
  simp [pulled, List.filterMap_append]

theorem pulled_handler_calls (ev : Event) : pulled (handler_calls ev) = [] := by
  cases ev <;> simp [handler_calls, pulled]
  case DVDNAV_NAV_PACKET btn_ns btnit act => split <;> simp

theorem pulled_passes (ps : List Pull) : pulled (ps.flatMap pass_calls) = ps.map Pull.buf := by
  induction ps with
  | nil => rfl
  | cons p ps ih =>
    rw [List.flatMap_cons, pulled_append, ih, pass_calls, pulled_append, pulled_append,
      pulled_handler_calls]
    simp [pulled]

/-- The `switch` never makes `tt_dump` nonzero. -/
theorem dispatch_tt_dump (s s2 : State) (ev : Event) (h : dispatch s ev = some s2)
    (h0 : s.tt_dump = 0) : s2.tt_dump = 0 := by
  cases ev <;> simp [dispatch] at h <;> try (subst h; simp [h0])
  case DVDNAV_STILL_FRAME len sk => split <;> simp [h0]
  case DVDNAV_VTS_CHANGE res w hh aspect =>
    split at h <;> simp at h <;> subst h <;> simp [h0]
  case DVDNAV_NAV_PACKET btn_ns btnit act =>
    by_cases hb : 0 < btn_ns
    · simp [hb, button_choice_first] at h
      subst h
      simp [h0]
    · simp [hb] at h
      subst h
      simp [h0]

theorem foldl_pass_state_tt_dump (ps : List Pull) (s : State) (h0 : s.tt_dump = 0) :
    (ps.foldl pass_state s).tt_dump = 0 := by
  induction ps generalizing s with
  | nil => exact h0
  | cons p ps ih =>
    obtain ⟨s2, hd⟩ := dispatch_total (s.call (.dvdnav_get_next_cache_block p.result p.buf)) p.event
    rw [List.foldl_cons]
    apply ih
    rw [pass_state_of_dispatch s s2 p hd]
    simpa using dispatch_tt_dump _ _ _ hd (by simpa using h0)

/-- The `DVDNAV_CELL_CHANGE` case issues the two queries, then logs the title
and the part the first one left in the locals, then the position message. -/
theorem cell_change_reports (s : State) (title_info tt ptt position pos len : Int) :
    ∃ s2, dispatch s (.DVDNAV_CELL_CHANGE title_info tt ptt position pos len) = some s2
      ∧ s2.calls = s.calls ++ [.dvdnav_current_title_info, .dvdnav_get_position]
      ∧ s2.logs = s.logs ++ [.cell_change tt ptt, .at_position] :=
  ⟨_, rfl, by simp, by simp⟩

/-! ## C1 -/

/-- C1: when the open phase succeeds and the engine's answers for the loop all
report success (every pull and every release returns `DVDNAV_STATUS_OK`) and
end in a `DVDNAV_STOP` event, `read_header` returns 0 through the exit of the
loop with `finished = 1`; in the calls it made, the number of
`dvdnav_free_cache_block` calls equals the number of successful
`dvdnav_get_next_cache_block` calls, and the lease protocol holds: each block is
released exactly once, before the next pull, and none is held at the end. -/
theorem read_header_stop_releases_every_block (e : Engine) (pre : List Pull) (last : Pull)
    (hopen : e.open_status = DVDNAV_STATUS_OK) (hra : e.readahead = DVDNAV_STATUS_OK)
    (hmenu : e.menu_language = DVDNAV_STATUS_OK) (haudio : e.audio_language = DVDNAV_STATUS_OK)
    (hspu : e.spu_language = DVDNAV_STATUS_OK) (hpgc : e.pgc_positioning = DVDNAV_STATUS_OK)
    (hblocks : e.blocks = pre ++ [last]) (hlast : last.event = Event.DVDNAV_STOP)
    (hok : ∀ p ∈ e.blocks, p.result = DVDNAV_STATUS_OK ∧ p.free = DVDNAV_STATUS_OK) :
    ∃ s, read_header e = some (.value 0, s) ∧ s.finished = 1
      ∧ released s.calls = acquired s.calls ∧ leaseRun s.calls = some none := by
  have hstop : ∃ p ∈ e.blocks, p.event = Event.DVDNAV_STOP := ⟨last, by simp [hblocks], hlast⟩
  rw [read_header_configured e hopen hra hmenu haudio hspu hpgc]
  obtain ⟨s2, cs, hrun, hfin, hcalls, hcount, hlease⟩ :=
    read_loop_stop e.blocks hok hstop (configured e) rfl
  refine ⟨s2, hrun, hfin, ?_, ?_⟩
  · rw [hcalls, released_append, acquired_append, hcount]
    simp [released, acquired, Call.isRelease, Call.isAcquire, configured]
  · rw [hcalls, leaseRun, List.foldl_append]
    simpa [configured, leaseStep] using hlease

/-- C1 at a concrete run: a block, a still frame, then `DVDNAV_STOP`. -/
theorem read_header_stop_releases_every_block_witness :
    ∃ s, read_header
        { open_status := 1, open_nav_data := some 1, readahead := 1, menu_language := 1,
          audio_language := 1, spu_language := 1, pgc_positioning := 1,
          blocks := [⟨1, 10, Event.DVDNAV_BLOCK_OK, 1⟩, ⟨1, 11, Event.DVDNAV_STILL_FRAME 5 1, 1⟩,
            ⟨1, 12, Event.DVDNAV_STOP, 1⟩] } = some (.value 0, s) ∧ s.finished = 1
      ∧ released s.calls = acquired s.calls ∧ leaseRun s.calls = some none :=
  read_header_stop_releases_every_block _
    [⟨1, 10, Event.DVDNAV_BLOCK_OK, 1⟩, ⟨1, 11, Event.DVDNAV_STILL_FRAME 5 1, 1⟩]
    ⟨1, 12, Event.DVDNAV_STOP, 1⟩ rfl rfl rfl rfl rfl rfl rfl rfl (by decide)

/-! ## C2 -/

/-- C2: on a `DVDNAV_VTS_CHANGE` event whose resolution query succeeds
(`dvdnav_get_video_resolution` returns 0) with raw values `rawW`, `rawH`, the
handler completes and sets, in 32-bit unsigned arithmetic,
`height = 4 * rawH`, `width = 3 * rawW` for aspect code 0 (4:3),
`height = 16 * rawH`, `width = 9 * rawW` for aspect code 3 (16:9), and
`width = height = 0` for every other code.  For raw 720 x 480 this is
1920 / 2160 for 4:3 and 7680 / 6480 for 16:9. -/
theorem vts_change_geometry (s : State) (rawW rawH aspect : Nat) :
    (∃ s2, dispatch s (.DVDNAV_VTS_CHANGE 0 rawW rawH aspect) = some s2
      ∧ s2.height = (if aspect = 0 then (4 * rawH) % 2 ^ 32
          else if aspect = 3 then (16 * rawH) % 2 ^ 32 else 0)
      ∧ s2.width = (if aspect = 0 then (3 * rawW) % 2 ^ 32
          else if aspect = 3 then (9 * rawW) % 2 ^ 32 else 0))
    ∧ (∃ s2, dispatch s (.DVDNAV_VTS_CHANGE 0 720 480 0) = some s2
        ∧ s2.height = 1920 ∧ s2.width = 2160)
    ∧ (∃ s2, dispatch s (.DVDNAV_VTS_CHANGE 0 720 480 3) = some s2
        ∧ s2.height = 7680 ∧ s2.width = 6480) := by
  refine ⟨?_, ⟨_, rfl, rfl, rfl⟩, ⟨_, rfl, rfl, rfl⟩⟩
  match aspect with
  | 0 => exact ⟨_, rfl, by simp, by simp⟩
  | 1 => exact ⟨_, rfl, by simp, by simp⟩
  | 2 => exact ⟨_, rfl, by simp, by simp⟩
  | 3 => exact ⟨_, rfl, by simp, by simp⟩
  | n + 4 => exact ⟨_, rfl, by simp, by simp⟩

/-! ## C3 -/

/-- C3: on a `DVDNAV_VTS_CHANGE` event whose resolution query fails
(`dvdnav_get_video_resolution` returns a nonzero value), whatever aspect code
the engine then reports, the handler completes with `width = 0`, `height = 0`
and `finished` still 0; the pass is not ended by it: with the block released
successfully, `read_header` goes on with the engine's next answer. -/
theorem vts_change_resolution_failure (s : State) (rest : List Pull)
    (result : Int) (buf : Nat) (res : Int) (rawW rawH aspect : Nat)
    (hf : s.finished = 0) (hr : result ≠ DVDNAV_STATUS_ERR) (hres : res ≠ 0) :
    ∃ s2, dispatch (s.call (.dvdnav_get_next_cache_block result buf))
          (.DVDNAV_VTS_CHANGE res rawW rawH aspect) = some s2
      ∧ s2.width = 0 ∧ s2.height = 0 ∧ s2.finished = 0
      ∧ read_loop (⟨result, buf, .DVDNAV_VTS_CHANGE res rawW rawH aspect, DVDNAV_STATUS_OK⟩
            :: rest) s
          = read_loop rest (s2.call (.dvdnav_free_cache_block buf)) := by
  obtain ⟨s2, hd⟩ := dispatch_total (s.call (.dvdnav_get_next_cache_block result buf))
    (.DVDNAV_VTS_CHANGE res rawW rawH aspect)
  have hfin := dispatch_finished _ _ _ hd
  refine ⟨s2, hd, ?_, ?_, ?_, ?_⟩
  · simp only [dispatch, hres, ne_eq, not_false_eq_true, if_true] at hd
    split at hd <;> simp at hd <;> subst hd <;> rfl
  · simp only [dispatch, hres, ne_eq, not_false_eq_true, if_true] at hd
    split at hd <;> simp at hd <;> subst hd <;> rfl
  · simpa [Event.stops, hf] using hfin
  · exact read_loop_pass ⟨result, buf, _, DVDNAV_STATUS_OK⟩ rest s s2 hf hr rfl hd

/-- C3 at a concrete pass: the query returns -1 and the engine reports 4:3. -/
theorem vts_change_resolution_failure_witness :
    ∃ s2, dispatch ((configured ⟨1, some 1, 1, 1, 1, 1, 1, []⟩).call
            (.dvdnav_get_next_cache_block 1 7))
          (.DVDNAV_VTS_CHANGE (-1) 720 480 0) = some s2
      ∧ s2.width = 0 ∧ s2.height = 0 ∧ s2.finished = 0
      ∧ read_loop (⟨1, 7, .DVDNAV_VTS_CHANGE (-1) 720 480 0, DVDNAV_STATUS_OK⟩ :: [])
            (configured ⟨1, some 1, 1, 1, 1, 1, 1, []⟩)
          = read_loop [] (s2.call (.dvdnav_free_cache_block 7)) :=
  vts_change_resolution_failure (configured ⟨1, some 1, 1, 1, 1, 1, 1, []⟩) [] 1 7 (-1) 720 480 0
    rfl (by decide) (by decide)

/-! ## C4 -/

/-- C4: on a `DVDNAV_NAV_PACKET` event the handler completes; the calls it
adds contain no `dvdnav_button_select_and_activate` when `btn_ns = 0`, and
exactly one when `btn_ns > 0`, carrying an index between 1 and `btn_ns`. -/
theorem nav_packet_button_command (s : State) (btn_ns : Nat) (btnit : List btni_t)
    (activate : Int) :
    ∃ s2 cs, dispatch s (.DVDNAV_NAV_PACKET btn_ns btnit activate) = some s2
      ∧ s2.calls = s.calls ++ cs
      ∧ (if btn_ns = 0 then activations cs = []
          else ∃ index : Int, activations cs = [index] ∧ 1 ≤ index ∧ index ≤ btn_ns) := by
  obtain ⟨s2, hd⟩ := dispatch_total s (.DVDNAV_NAV_PACKET btn_ns btnit activate)
  refine ⟨s2, _, hd, dispatch_calls _ _ _ hd, ?_⟩
  by_cases hb : btn_ns = 0
  · simp [hb, handler_calls, activations]
  · have hpos : 0 < btn_ns := Nat.pos_of_ne_zero hb
    simp only [hb, if_false]
    refine ⟨1, ?_, le_refl _, ?_⟩
    · simp [handler_calls, hpos, activations]
    · exact_mod_cast hpos

/-! ## C5 -/

/-- C5 as stated fails: on the single unrecognised event 99 the `default:`
branch sets `finished = 1`, and after that dispatch the loop still issues an
engine call, the `dvdnav_free_cache_block` of the block of that pass. -/
theorem unrecognised_event_release_counterexample :
    ∃ s2 s3, dispatch ((configured (okEngine [])).call (.dvdnav_get_next_cache_block 1 7))
          (.unrecognised 99) = some s2
      ∧ s2.finished = 1
      ∧ read_loop [⟨1, 7, .unrecognised 99, 1⟩] (configured (okEngine [])) = some (.value 0, s3)
      ∧ s3.calls = s2.calls ++ [.dvdnav_free_cache_block 7]
      ∧ s3.calls ≠ s2.calls :=
  ⟨_, _, rfl, rfl, rfl, rfl, by decide⟩

/-- C5, amended: when a pull that does not fail delivers an unrecognised event
while the loop is running, the `default:` branch sets `finished = 1` without
issuing any engine call, and `read_header` then returns after exactly one more
engine call, the `dvdnav_free_cache_block` of the block of that pass: no
further pull, query or command is issued, whatever the engine would answer
next and whether or not that release succeeds. -/
theorem unrecognised_event_stops (s : State) (rest : List Pull)
    (result : Int) (buf : Nat) (code : Int) (free : Int)
    (hf : s.finished = 0) (hr : result ≠ DVDNAV_STATUS_ERR) :
    ∃ s2 ret s3, dispatch (s.call (.dvdnav_get_next_cache_block result buf))
          (.unrecognised code) = some s2
      ∧ s2.finished = 1
      ∧ s2.calls = s.calls ++ [.dvdnav_get_next_cache_block result buf]
      ∧ read_loop (⟨result, buf, .unrecognised code, free⟩ :: rest) s = some (ret, s3)
      ∧ s3.finished = 1
      ∧ s3.calls = s2.calls ++ [.dvdnav_free_cache_block buf] := by
  have hd : dispatch (s.call (.dvdnav_get_next_cache_block result buf)) (.unrecognised code)
      = some { (s.call (.dvdnav_get_next_cache_block result buf)).log (.unknown_event code)
          with finished := 1 } := rfl
  by_cases hfree : free = DVDNAV_STATUS_OK
  · refine ⟨_, .value 0, (State.call { (s.call (.dvdnav_get_next_cache_block result buf)).log
        (.unknown_event code) with finished := 1 } (.dvdnav_free_cache_block buf)).log .finished,
      hd, rfl, rfl, ?_, rfl, rfl⟩
    rw [read_loop_pass ⟨result, buf, .unrecognised code, free⟩ rest s _ hf hr hfree hd]
    exact read_loop_finished rest _ (by simp [State.call, State.log])
  · refine ⟨_, .value 5, (State.call { (s.call (.dvdnav_get_next_cache_block result buf)).log
        (.unknown_event code) with finished := 1 } (.dvdnav_free_cache_block buf)).log
          .error_freeing,
      hd, rfl, rfl, ?_, rfl, rfl⟩
    simp [read_loop, hf, hr, hfree, hd]

/-- C5, amended, at a concrete pass: event code 99 on a freshly configured session. -/
theorem unrecognised_event_stops_witness :
    ∃ s2 ret s3, dispatch ((configured (okEngine [])).call (.dvdnav_get_next_cache_block 1 7))
          (.unrecognised 99) = some s2
      ∧ s2.finished = 1
      ∧ s2.calls = (configured (okEngine [])).calls ++ [.dvdnav_get_next_cache_block 1 7]
      ∧ read_loop (⟨1, 7, .unrecognised 99, 1⟩ :: [⟨1, 8, .DVDNAV_BLOCK_OK, 1⟩])
          (configured (okEngine [])) = some (ret, s3)
      ∧ s3.finished = 1
      ∧ s3.calls = s2.calls ++ [.dvdnav_free_cache_block 7] :=
  unrecognised_event_stops (configured (okEngine [])) [⟨1, 8, .DVDNAV_BLOCK_OK, 1⟩] 1 7 99 1
    rfl (by decide)

/-! ## C6 -/

/-- C6 as stated fails in its count: the run performs 6 acquire/release pairs,
one for each of the six events (the pull that delivers `DVDNAV_STOP` is
released too), not 5. -/
theorem scenario_pairs_counterexample :
    ∃ s, read_header scenario = some (.value 0, s)
      ∧ acquired s.calls = 6 ∧ released s.calls = 6 ∧ acquired s.calls ≠ 5 :=
  ⟨_, rfl, rfl, rfl, by decide⟩

/-- C6, amended: on the end-to-end run `read_header` returns 0 with
`finished = 1`, the final geometry is height 1920 and width 2160, and exactly
6 acquire/release pairs are performed, under the lease protocol.  Of the
playback position the run reports the title and the part: the messages logged
are "Cell change: Title 1, Chapter 1", the position message, "Stopping
Playback" and "Finished !".  The title and the position are each queried
once; `pos` and `len` are held by no state of `read_header` and by no
message. -/
theorem scenario_run :
    ∃ s, read_header scenario = some (.value 0, s)
      ∧ s.finished = 1 ∧ s.height = 1920 ∧ s.width = 2160
      ∧ reportedCells s.logs = [(1, 1)]
      ∧ s.logs = [.cell_change 1 1, .at_position, .stopping_playback, .finished]
      ∧ s.calls.count .dvdnav_current_title_info = 1
      ∧ s.calls.count .dvdnav_get_position = 1
      ∧ acquired s.calls = 6 ∧ released s.calls = 6 ∧ leaseRun s.calls = some none :=
  ⟨_, rfl, rfl, rfl, rfl, rfl, rfl, rfl, rfl, rfl, rfl, rfl⟩

/-! ## C7 -/

/-- C7, the code at the failing inputs: after a successful `dvdnav_open` and a
successful read-ahead activation, a failing menu, audio or subpicture language
selection makes `read_header` return `AVERROR(EACCES)` without any
`dvdnav_close`: the engine session is still open.  The sibling paths do close
it: a failing read-ahead activation and a failing PGC positioning both end in
`dvdnav_close`. -/
theorem language_failure_leaves_session_open :
    (∃ s, read_header ⟨1, some 1, 1, 0, 1, 1, 1, []⟩ = some (.AVERROR EACCES, s)
      ∧ s.calls = [.dvdnav_open 1 (some 1), .dvdnav_set_readahead_flag 1,
          .dvdnav_menu_language_select]
      ∧ sessionOpen s.calls = true)
    ∧ (∃ s, read_header ⟨1, some 1, 1, 1, 0, 1, 1, []⟩ = some (.AVERROR EACCES, s)
      ∧ s.calls = [.dvdnav_open 1 (some 1), .dvdnav_set_readahead_flag 1,
          .dvdnav_menu_language_select, .dvdnav_audio_language_select]
      ∧ sessionOpen s.calls = true)
    ∧ (∃ s, read_header ⟨1, some 1, 1, 1, 1, 0, 1, []⟩ = some (.AVERROR EACCES, s)
      ∧ s.calls = [.dvdnav_open 1 (some 1), .dvdnav_set_readahead_flag 1,
          .dvdnav_menu_language_select, .dvdnav_audio_language_select,
          .dvdnav_spu_language_select]
      ∧ sessionOpen s.calls = true)
    ∧ (∃ s, read_header ⟨1, some 1, 0, 1, 1, 1, 1, []⟩ = some (.AVERROR EACCES, s)
      ∧ s.calls = [.dvdnav_open 1 (some 1), .dvdnav_set_readahead_flag 1,
          .dvdnav_close (some 1)]
      ∧ sessionOpen s.calls = false)
    ∧ (∃ s, read_header ⟨1, some 1, 1, 1, 1, 1, 0, []⟩ = some (.AVERROR EACCES, s)
      ∧ s.calls = [.dvdnav_open 1 (some 1), .dvdnav_set_readahead_flag 1,
          .dvdnav_menu_language_select, .dvdnav_audio_language_select,
          .dvdnav_spu_language_select, .dvdnav_set_PGC_positioning_flag 0,
          .dvdnav_close (some 1)]
      ∧ sessionOpen s.calls = false) :=
  ⟨⟨_, rfl, rfl, rfl⟩, ⟨_, rfl, rfl, rfl⟩, ⟨_, rfl, rfl, rfl⟩, ⟨_, rfl, rfl, rfl⟩,
    ⟨_, rfl, rfl, rfl⟩⟩

/-! ## C8 -/

/-- C8, the code at the failing inputs.  `read_close` leaves `status` and
`nav_data` as they are, so on an opened session a second `read_close` issues a
second `dvdnav_close` of the same handle; and on a session that `read_header`
already closed on a read-ahead failure, `read_close` issues `dvdnav_close`
again.  On a never-opened session (`status = 0`, `nav_data = NULL`) it issues
none, once or twice. -/
theorem read_close_twice_closes_twice :
    (closes (read_close (configured (okEngine []))).2.calls = [.dvdnav_close (some 1)]
      ∧ closes (read_close (read_close (configured (okEngine []))).2).2.calls
          = [.dvdnav_close (some 1), .dvdnav_close (some 1)])
    ∧ (∃ s, read_header ⟨1, some 1, 0, 1, 1, 1, 1, []⟩ = some (.AVERROR EACCES, s)
        ∧ closes s.calls = [.dvdnav_close (some 1)]
        ∧ closes (read_close s).2.calls = [.dvdnav_close (some 1), .dvdnav_close (some 1)])
    ∧ (closes (read_close ⟨⟨none, 0⟩, 0, 0, 0, 0, 0, [], []⟩).2.calls = []
        ∧ closes (read_close (read_close ⟨⟨none, 0⟩, 0, 0, 0, 0, 0, [], []⟩).2).2.calls = []) :=
  ⟨⟨rfl, rfl⟩, ⟨_, rfl, rfl, rfl⟩, rfl, rfl⟩

/-! ## C9 -/

/-- C9 as stated fails: `dvdnav_still_skip`, `dvdnav_wait_skip`,
`dvdnav_current_title_info`, `dvdnav_get_position` and
`dvdnav_button_select_and_activate` all report `DVDNAV_STATUS_ERR` in this run,
and `read_header` keeps pulling events until `DVDNAV_STOP` and returns 0. -/
theorem command_failure_counterexample :
    ∃ s, read_header (okEngine
        [⟨1, 1, .DVDNAV_STILL_FRAME 5 DVDNAV_STATUS_ERR, 1⟩,
         ⟨1, 2, .DVDNAV_WAIT DVDNAV_STATUS_ERR, 1⟩,
         ⟨1, 3, .DVDNAV_CELL_CHANGE DVDNAV_STATUS_ERR 0 0 DVDNAV_STATUS_ERR 0 0, 1⟩,
         ⟨1, 4, .DVDNAV_NAV_PACKET 2 [] DVDNAV_STATUS_ERR, 1⟩,
         ⟨1, 5, .DVDNAV_STOP, 1⟩]) = some (.value 0, s)
      ∧ s.calls = (configured (okEngine [])).calls ++
          [.dvdnav_get_next_cache_block 1 1, .dvdnav_still_skip, .dvdnav_free_cache_block 1,
           .dvdnav_get_next_cache_block 1 2, .dvdnav_wait_skip, .dvdnav_free_cache_block 2,
           .dvdnav_get_next_cache_block 1 3, .dvdnav_current_title_info, .dvdnav_get_position,
           .dvdnav_free_cache_block 3,
           .dvdnav_get_next_cache_block 1 4, .dvdnav_get_current_nav_pci,
           .dvdnav_get_current_nav_dsi, .dvdnav_button_select_and_activate 1,
           .dvdnav_free_cache_block 4,
           .dvdnav_get_next_cache_block 1 5, .dvdnav_free_cache_block 5] :=
  ⟨_, rfl, rfl⟩

/-- C9, amended: what `dvdnav_still_skip`, `dvdnav_wait_skip`,
`dvdnav_current_title_info`, `dvdnav_get_position` and
`dvdnav_button_select_and_activate` return is ignored.  Whatever status they
report (`DVDNAV_STATUS_ERR` included), the handler ends in the same state as
when they report `DVDNAV_STATUS_OK`, with `finished` still 0, and after a
successful release of the block `read_header` goes on with the engine's next
answer. -/
theorem command_failures_ignored (s : State) (rest : List Pull) (result : Int) (buf : Nat)
    (st st2 : Int) (length tt ptt pos len : Int) (btn_ns : Nat) (btnit : List btni_t)
    (hf : s.finished = 0) (hr : result ≠ DVDNAV_STATUS_ERR) :
    (∃ s2, dispatch (s.call (.dvdnav_get_next_cache_block result buf))
          (.DVDNAV_STILL_FRAME length st) = some s2
      ∧ dispatch (s.call (.dvdnav_get_next_cache_block result buf))
          (.DVDNAV_STILL_FRAME length DVDNAV_STATUS_OK) = some s2
      ∧ s2.finished = 0
      ∧ read_loop (⟨result, buf, .DVDNAV_STILL_FRAME length st, DVDNAV_STATUS_OK⟩ :: rest) s
          = read_loop rest (s2.call (.dvdnav_free_cache_block buf)))
    ∧ (∃ s2, dispatch (s.call (.dvdnav_get_next_cache_block result buf))
          (.DVDNAV_WAIT st) = some s2
      ∧ dispatch (s.call (.dvdnav_get_next_cache_block result buf))
          (.DVDNAV_WAIT DVDNAV_STATUS_OK) = some s2
      ∧ s2.finished = 0
      ∧ read_loop (⟨result, buf, .DVDNAV_WAIT st, DVDNAV_STATUS_OK⟩ :: rest) s
          = read_loop rest (s2.call (.dvdnav_free_cache_block buf)))
    ∧ (∃ s2, dispatch (s.call (.dvdnav_get_next_cache_block result buf))
          (.DVDNAV_CELL_CHANGE st tt ptt st2 pos len) = some s2
      ∧ dispatch (s.call (.dvdnav_get_next_cache_block result buf))
          (.DVDNAV_CELL_CHANGE DVDNAV_STATUS_OK tt ptt DVDNAV_STATUS_OK pos len) = some s2
      ∧ s2.finished = 0
      ∧ read_loop (⟨result, buf, .DVDNAV_CELL_CHANGE st tt ptt st2 pos len, DVDNAV_STATUS_OK⟩
            :: rest) s
          = read_loop rest (s2.call (.dvdnav_free_cache_block buf)))
    ∧ (∃ s2, dispatch (s.call (.dvdnav_get_next_cache_block result buf))
          (.DVDNAV_NAV_PACKET btn_ns btnit st) = some s2
      ∧ dispatch (s.call (.dvdnav_get_next_cache_block result buf))
          (.DVDNAV_NAV_PACKET btn_ns btnit DVDNAV_STATUS_OK) = some s2
      ∧ s2.finished = 0
      ∧ read_loop (⟨result, buf, .DVDNAV_NAV_PACKET btn_ns btnit st, DVDNAV_STATUS_OK⟩
            :: rest) s
          = read_loop rest (s2.call (.dvdnav_free_cache_block buf))) := by
  refine ⟨?_, ?_, ?_, ?_⟩
  · obtain ⟨s2, hd, hfin, hl⟩ := read_loop_continues s rest result buf
      (.DVDNAV_STILL_FRAME length st) hf hr rfl
    exact ⟨s2, hd, hd, hfin, hl⟩
  · obtain ⟨s2, hd, hfin, hl⟩ := read_loop_continues s rest result buf
      (.DVDNAV_WAIT st) hf hr rfl
    exact ⟨s2, hd, hd, hfin, hl⟩
  · obtain ⟨s2, hd, hfin, hl⟩ := read_loop_continues s rest result buf
      (.DVDNAV_CELL_CHANGE st tt ptt st2 pos len) hf hr rfl
    exact ⟨s2, hd, hd, hfin, hl⟩
  · obtain ⟨s2, hd, hfin, hl⟩ := read_loop_continues s rest result buf
      (.DVDNAV_NAV_PACKET btn_ns btnit st) hf hr rfl
    exact ⟨s2, hd, hd, hfin, hl⟩

/-- C9, amended, at a concrete pass: `dvdnav_still_skip` reports
`DVDNAV_STATUS_ERR` on a freshly configured session. -/
theorem command_failures_ignored_witness :
    ∃ s2, dispatch ((configured (okEngine [])).call (.dvdnav_get_next_cache_block 1 7))
          (.DVDNAV_STILL_FRAME 5 DVDNAV_STATUS_ERR) = some s2
      ∧ dispatch ((configured (okEngine [])).call (.dvdnav_get_next_cache_block 1 7))
          (.DVDNAV_STILL_FRAME 5 DVDNAV_STATUS_OK) = some s2
      ∧ s2.finished = 0
      ∧ read_loop (⟨1, 7, .DVDNAV_STILL_FRAME 5 DVDNAV_STATUS_ERR, DVDNAV_STATUS_OK⟩
            :: [⟨1, 8, .DVDNAV_STOP, 1⟩]) (configured (okEngine []))
          = read_loop [⟨1, 8, .DVDNAV_STOP, 1⟩] (s2.call (.dvdnav_free_cache_block 7)) :=
  (command_failures_ignored (configured (okEngine [])) [⟨1, 8, .DVDNAV_STOP, 1⟩] 1 7
    DVDNAV_STATUS_ERR DVDNAV_STATUS_ERR 5 0 0 0 0 2 [] rfl (by decide)).1

/-! ## C10 -/

/-- C10 as stated fails: a run ended by the unrecognised event 99 returns 0,
the very result of the same run ended by `DVDNAV_STOP`. -/
theorem unrecognised_event_result_counterexample :
    (∃ s, read_header (okEngine [⟨1, 1, .DVDNAV_BLOCK_OK, 1⟩, ⟨1, 2, .unrecognised 99, 1⟩])
        = some (.value 0, s))
    ∧ (∃ s, read_header (okEngine [⟨1, 1, .DVDNAV_BLOCK_OK, 1⟩, ⟨1, 2, .DVDNAV_STOP, 1⟩])
        = some (.value 0, s)) :=
  ⟨⟨_, rfl⟩, ⟨_, rfl⟩⟩

/-- C10, amended: an unrecognised event ends `read_header` the way
`DVDNAV_STOP` does.  When the open phase succeeds, the passes before the first
terminating event let the loop continue, and the pull and the release of the
terminating pass succeed, `read_header` returns 0 with `finished = 1`, whether
that terminating event is unrecognised or `DVDNAV_STOP`. -/
theorem unrecognised_event_returns_zero (e : Engine) (pre rest : List Pull) (p : Pull)
    (code : Int)
    (hopen : e.open_status = DVDNAV_STATUS_OK) (hra : e.readahead = DVDNAV_STATUS_OK)
    (hmenu : e.menu_language = DVDNAV_STATUS_OK) (haudio : e.audio_language = DVDNAV_STATUS_OK)
    (hspu : e.spu_language = DVDNAV_STATUS_OK) (hpgc : e.pgc_positioning = DVDNAV_STATUS_OK)
    (hblocks : e.blocks = pre ++ p :: rest)
    (hpre : ∀ q ∈ pre, q.result ≠ DVDNAV_STATUS_ERR ∧ q.free = DVDNAV_STATUS_OK
      ∧ q.event.stops = false)
    (hr : p.result ≠ DVDNAV_STATUS_ERR) (hfree : p.free = DVDNAV_STATUS_OK)
    (hev : p.event = .unrecognised code ∨ p.event = .DVDNAV_STOP) :
    ∃ s, read_header e = some (.value 0, s) ∧ s.finished = 1 := by
  rw [read_header_configured e hopen hra hmenu haudio hspu hpgc, hblocks]
  obtain ⟨s1, hf1, -, -, hrun⟩ := read_loop_prefix pre hpre (configured e) rfl
  rw [hrun]
  obtain ⟨s2, hd⟩ := dispatch_total (s1.call (.dvdnav_get_next_cache_block p.result p.buf)) p.event
  rw [read_loop_pass p rest s1 s2 hf1 hr hfree hd]
  have hfin : s2.finished = 1 := by
    rw [dispatch_finished _ _ _ hd]
    rcases hev with h | h <;> simp [h, Event.stops]
  rw [read_loop_finished rest _ (by simp [hfin])]
  exact ⟨_, rfl, by simpa using hfin⟩

/-- C10, amended, at a concrete run: a block, then the unrecognised event 99. -/
theorem unrecognised_event_returns_zero_witness :
    ∃ s, read_header (okEngine [⟨1, 1, .DVDNAV_BLOCK_OK, 1⟩, ⟨1, 2, .unrecognised 99, 1⟩,
        ⟨1, 3, .DVDNAV_BLOCK_OK, 1⟩]) = some (.value 0, s) ∧ s.finished = 1 :=
  unrecognised_event_returns_zero
    (okEngine [⟨1, 1, .DVDNAV_BLOCK_OK, 1⟩, ⟨1, 2, .unrecognised 99, 1⟩,
      ⟨1, 3, .DVDNAV_BLOCK_OK, 1⟩])
    [⟨1, 1, .DVDNAV_BLOCK_OK, 1⟩] [⟨1, 3, .DVDNAV_BLOCK_OK, 1⟩] ⟨1, 2, .unrecognised 99, 1⟩ 99
    rfl rfl rfl rfl rfl rfl rfl (by decide) (by decide) rfl (Or.inl rfl)

/-! ## C11 -/

/-- C11: when the open phase succeeds, the first `k - 1` passes succeed and let
the loop continue, and the `k`-th pull reports `DVDNAV_STATUS_ERR`,
`read_header` returns 3.  After that pull it issues a single engine call, the
`dvdnav_err_to_string` that fetches the text of the message it prints: no
second pull, no call of a handler, no release for the failed pull.  The event
stored by the failed pull is not dispatched (`finished` is still 0 and the
last message is the read error), exactly `k - 1` blocks were acquired and
`k - 1` released, under the lease protocol. -/
theorem pull_failure_returns_three (e : Engine) (pre rest : List Pull) (p : Pull)
    (hopen : e.open_status = DVDNAV_STATUS_OK) (hra : e.readahead = DVDNAV_STATUS_OK)
    (hmenu : e.menu_language = DVDNAV_STATUS_OK) (haudio : e.audio_language = DVDNAV_STATUS_OK)
    (hspu : e.spu_language = DVDNAV_STATUS_OK) (hpgc : e.pgc_positioning = DVDNAV_STATUS_OK)
    (hblocks : e.blocks = pre ++ p :: rest)
    (hpre : ∀ q ∈ pre, q.result = DVDNAV_STATUS_OK ∧ q.free = DVDNAV_STATUS_OK
      ∧ q.event.stops = false)
    (hp : p.result = DVDNAV_STATUS_ERR) :
    ∃ s, read_header e = some (.value 3, s)
      ∧ s.calls = (configured e).calls ++ pre.flatMap pass_calls
          ++ [.dvdnav_get_next_cache_block p.result p.buf, .dvdnav_err_to_string]
      ∧ released s.calls = pre.length ∧ acquired s.calls = pre.length
      ∧ leaseRun s.calls = some none
      ∧ s.finished = 0 ∧ s.logs.getLast? = some .error_getting_next_block := by
  have hpre2 : ∀ q ∈ pre, q.result ≠ DVDNAV_STATUS_ERR ∧ q.free = DVDNAV_STATUS_OK
      ∧ q.event.stops = false := by
    intro q hq
    obtain ⟨h1, h2, h3⟩ := hpre q hq
    exact ⟨by rw [h1]; decide, h2, h3⟩
  obtain ⟨hl, ha, hrel⟩ := passes_calls_lease pre (fun q hq => (hpre q hq).1)
  rw [read_header_configured e hopen hra hmenu haudio hspu hpgc, hblocks]
  obtain ⟨s1, hf1, -, hc1, hrun⟩ := read_loop_prefix pre hpre2 (configured e) rfl
  rw [hrun]
  have hstep : read_loop (p :: rest) s1 = some (.value 3,
      ((s1.call (.dvdnav_get_next_cache_block p.result p.buf)).call
        .dvdnav_err_to_string).log .error_getting_next_block) := by
    simp [read_loop, hf1, hp]
  have hnok : (DVDNAV_STATUS_ERR = DVDNAV_STATUS_OK) = False := by decide
  refine ⟨_, hstep, ?_, ?_, ?_, ?_, ?_, ?_⟩
  · simp [hc1]
  · simp only [State.log_calls, State.call_calls, hc1, released_append, hrel]
    simp [released, configured, Call.isRelease]
  · simp only [State.log_calls, State.call_calls, hc1, acquired_append, ha]
    simp [acquired, configured, Call.isAcquire, hp, hnok]
  · simp only [State.log_calls, State.call_calls, hc1, leaseRun, List.foldl_append]
    rw [show (configured e).calls.foldl leaseStep (some none) = some none from rfl, hl]
    simp [leaseStep, hp, hnok]
  · simpa using hf1
  · simp

/-- C11 at a concrete run: two passes, then a failing third pull. -/
theorem pull_failure_returns_three_witness :
    ∃ s, read_header (okEngine [⟨1, 1, .DVDNAV_BLOCK_OK, 1⟩, ⟨1, 2, .DVDNAV_WAIT 1, 1⟩,
        ⟨0, 3, .DVDNAV_STOP, 1⟩, ⟨1, 4, .DVDNAV_BLOCK_OK, 1⟩]) = some (.value 3, s)
      ∧ s.calls = (configured (okEngine [⟨1, 1, .DVDNAV_BLOCK_OK, 1⟩, ⟨1, 2, .DVDNAV_WAIT 1, 1⟩,
            ⟨0, 3, .DVDNAV_STOP, 1⟩, ⟨1, 4, .DVDNAV_BLOCK_OK, 1⟩])).calls
          ++ [⟨1, 1, .DVDNAV_BLOCK_OK, 1⟩, ⟨1, 2, .DVDNAV_WAIT 1, 1⟩].flatMap pass_calls
          ++ [.dvdnav_get_next_cache_block (⟨0, 3, .DVDNAV_STOP, 1⟩ : Pull).result
                (⟨0, 3, .DVDNAV_STOP, 1⟩ : Pull).buf, .dvdnav_err_to_string]
      ∧ released s.calls = [(⟨1, 1, .DVDNAV_BLOCK_OK, 1⟩ : Pull), ⟨1, 2, .DVDNAV_WAIT 1, 1⟩].length
      ∧ acquired s.calls = [(⟨1, 1, .DVDNAV_BLOCK_OK, 1⟩ : Pull), ⟨1, 2, .DVDNAV_WAIT 1, 1⟩].length
      ∧ leaseRun s.calls = some none
      ∧ s.finished = 0 ∧ s.logs.getLast? = some .error_getting_next_block :=
  pull_failure_returns_three
    (okEngine [⟨1, 1, .DVDNAV_BLOCK_OK, 1⟩, ⟨1, 2, .DVDNAV_WAIT 1, 1⟩,
      ⟨0, 3, .DVDNAV_STOP, 1⟩, ⟨1, 4, .DVDNAV_BLOCK_OK, 1⟩])
    [⟨1, 1, .DVDNAV_BLOCK_OK, 1⟩, ⟨1, 2, .DVDNAV_WAIT 1, 1⟩] [⟨1, 4, .DVDNAV_BLOCK_OK, 1⟩]
    ⟨0, 3, .DVDNAV_STOP, 1⟩ rfl rfl rfl rfl rfl rfl rfl (by decide) rfl

/-! ## C12 -/

/-- C12 as stated fails: on a still frame of the indefinite length 0xff the
handler logs "Skipping indefinite length still frame" and issues
`dvdnav_still_skip` itself. -/
theorem indefinite_still_skip_counterexample :
    ∃ s2, dispatch (configured (okEngine [])) (.DVDNAV_STILL_FRAME 0xff 1) = some s2
      ∧ s2.logs = [.skipping_indefinite_still]
      ∧ s2.calls = (configured (okEngine [])).calls ++ [.dvdnav_still_skip] :=
  ⟨_, rfl, rfl, rfl⟩

/-- C12, amended: on a `DVDNAV_STILL_FRAME` event the handler issues exactly one
`dvdnav_still_skip`, at once and whatever the length, the indefinite length
0xff included; the length only selects the message logged before the command
("Skipping n seconds" below 0xff, "Skipping indefinite length" otherwise).
Nothing else changes. -/
theorem still_frame_always_skips (s : State) (length skip : Int) :
    ∃ s2, dispatch s (.DVDNAV_STILL_FRAME length skip) = some s2
      ∧ s2.calls = s.calls ++ [.dvdnav_still_skip]
      ∧ s2.logs = s.logs ++ [if length < 0xff then LogMsg.skipping_still length
          else LogMsg.skipping_indefinite_still]
      ∧ s2.finished = s.finished ∧ s2.width = s.width ∧ s2.height = s.height := by
  by_cases h : length < 0xff
  · exact ⟨_, rfl, by simp [h], by simp [h], by simp [h], by simp [h], by simp [h]⟩
  · exact ⟨_, rfl, by simp [h], by simp [h], by simp [h], by simp [h], by simp [h]⟩

/-! ## C13 -/

/-- C13: the geometry is written by `DVDNAV_VTS_CHANGE` only and the last write
wins.  The `switch` leaves `width` and `height` as they are on every event
that is not a `DVDNAV_VTS_CHANGE`.  And when the open phase succeeds and the
engine's answers are a run of continuing passes followed by a pass that ends
`read_header` (its pull fails, or its release fails, or its event is
`DVDNAV_STOP` or unrecognised), `read_header` returns with the geometry equal
to the aspect mapping of the query results of the last `DVDNAV_VTS_CHANGE`
among the events delivered (the failed pull delivers none), and to `(0, 0)`
when no `DVDNAV_VTS_CHANGE` was delivered. -/
theorem geometry_last_write_wins (e : Engine) (pre rest : List Pull) (last : Pull)
    (hopen : e.open_status = DVDNAV_STATUS_OK) (hra : e.readahead = DVDNAV_STATUS_OK)
    (hmenu : e.menu_language = DVDNAV_STATUS_OK) (haudio : e.audio_language = DVDNAV_STATUS_OK)
    (hspu : e.spu_language = DVDNAV_STATUS_OK) (hpgc : e.pgc_positioning = DVDNAV_STATUS_OK)
    (hblocks : e.blocks = pre ++ last :: rest)
    (hpre : ∀ q ∈ pre, q.result ≠ DVDNAV_STATUS_ERR ∧ q.free = DVDNAV_STATUS_OK
      ∧ q.event.stops = false)
    (hlast : last.result = DVDNAV_STATUS_ERR ∨ last.free ≠ DVDNAV_STATUS_OK
      ∨ last.event.stops = true) :
    (∀ (s0 s2 : State) (ev : Event),
        (∀ res rawW rawH aspect, ev ≠ .DVDNAV_VTS_CHANGE res rawW rawH aspect) →
        dispatch s0 ev = some s2 → s2.width = s0.width ∧ s2.height = s0.height)
    ∧ ∃ ret s, read_header e = some (ret, s)
        ∧ (s.width, s.height)
            = (last_vts_geometry ((pre ++
                (if last.result = DVDNAV_STATUS_ERR then [] else [last])).map Pull.event)).getD
                (0, 0) := by
  constructor
  · intro s0 s2 ev hev hd
    have hg := dispatch_geometry s0 s2 ev hd
    have hnone : vts_geometry ev = none := by
      cases ev <;> simp [vts_geometry]
      case DVDNAV_VTS_CHANGE res w h a => exact hev res w h a rfl
    rw [hnone] at hg
    simpa using hg
  · rw [read_header_configured e hopen hra hmenu haudio hspu hpgc, hblocks]
    obtain ⟨hf1, hrun⟩ := read_loop_passes pre hpre (configured e) rfl
    rw [hrun]
    by_cases herr : last.result = DVDNAV_STATUS_ERR
    · refine ⟨.value 3, (((pre.foldl pass_state (configured e)).call
          (.dvdnav_get_next_cache_block last.result last.buf)).call
            .dvdnav_err_to_string).log .error_getting_next_block,
        by simp [read_loop, hf1, herr], ?_⟩
      simpa [herr] using foldl_pass_state_geometry pre (configured e)
    · obtain ⟨s2, hd⟩ := dispatch_total
        ((pre.foldl pass_state (configured e)).call
          (.dvdnav_get_next_cache_block last.result last.buf)) last.event
      have hps := pass_state_of_dispatch _ s2 last hd
      have hgeo := foldl_pass_state_geometry (pre ++ [last]) (configured e)
      rw [List.foldl_append, List.foldl_cons, List.foldl_nil, hps] at hgeo
      by_cases hfree : last.free = DVDNAV_STATUS_OK
      · have hs : last.event.stops = true := by
          rcases hlast with h | h | h
          · exact absurd h herr
          · exact absurd hfree h
          · exact h
        have hfin : (s2.call (.dvdnav_free_cache_block last.buf)).finished ≠ 0 := by
          have := dispatch_finished _ _ _ hd
          simp [this, hs]
        refine ⟨.value 0, (s2.call (.dvdnav_free_cache_block last.buf)).log .finished, ?_, ?_⟩
        · rw [read_loop_pass last rest _ s2 hf1 herr hfree hd]
          exact read_loop_finished rest _ hfin
        · simpa [herr] using hgeo
      · refine ⟨.value 5, (s2.call (.dvdnav_free_cache_block last.buf)).log .error_freeing,
          by simp [read_loop, hf1, herr, hd, hfree], ?_⟩
        simpa [herr] using hgeo

/-- C13 at a concrete run: two `DVDNAV_VTS_CHANGE` (4:3 at 720 x 480, then 16:9
at 704 x 576), a block, `DVDNAV_STOP`; the second one decides. -/
theorem geometry_last_write_wins_witness :
    ∃ ret s, read_header (okEngine (sample_vts ++ sample_stop :: sample_tail)) = some (ret, s)
      ∧ (s.width, s.height)
          = (last_vts_geometry ((sample_vts ++
              (if sample_stop.result = DVDNAV_STATUS_ERR then [] else [sample_stop])).map
                Pull.event)).getD (0, 0) :=
  (geometry_last_write_wins (okEngine (sample_vts ++ sample_stop :: sample_tail))
    sample_vts sample_tail sample_stop
    rfl rfl rfl rfl rfl rfl rfl (by decide) (Or.inr (Or.inr rfl))).2

/-! ## C14 -/

/-- C14: when the open phase succeeds and the engine's answers are a run of
passes on events that are neither `DVDNAV_STOP` nor unrecognised, then a pass
on `DVDNAV_STOP` or on an unrecognised event, every pull and release
succeeding, `read_header` returns 0 in the state obtained by running the passes
up to and including that one, once each and in order.  The blocks pulled are
those of these passes, in delivery order, so the number of pulls is the
1-based index of the first stopping event; the calls are those of these
passes; nothing of what the engine would deliver afterwards is pulled or
dispatched. -/
theorem events_consumed_in_order (e : Engine) (pre rest : List Pull) (last : Pull)
    (hopen : e.open_status = DVDNAV_STATUS_OK) (hra : e.readahead = DVDNAV_STATUS_OK)
    (hmenu : e.menu_language = DVDNAV_STATUS_OK) (haudio : e.audio_language = DVDNAV_STATUS_OK)
    (hspu : e.spu_language = DVDNAV_STATUS_OK) (hpgc : e.pgc_positioning = DVDNAV_STATUS_OK)
    (hblocks : e.blocks = pre ++ last :: rest)
    (hpre : ∀ q ∈ pre, q.result = DVDNAV_STATUS_OK ∧ q.free = DVDNAV_STATUS_OK
      ∧ q.event.stops = false)
    (hlast : last.result = DVDNAV_STATUS_OK ∧ last.free = DVDNAV_STATUS_OK
      ∧ last.event.stops = true) :
    ∃ s, read_header e = some (.value 0, s)
      ∧ s = ((pre ++ [last]).foldl pass_state (configured e)).log .finished
      ∧ s.calls = (configured e).calls ++ (pre ++ [last]).flatMap pass_calls
      ∧ pulled s.calls = (pre ++ [last]).map Pull.buf
      ∧ (pulled s.calls).length = pre.length + 1 := by
  have hok : DVDNAV_STATUS_OK ≠ DVDNAV_STATUS_ERR := by decide
  have hpre2 : ∀ q ∈ pre, q.result ≠ DVDNAV_STATUS_ERR ∧ q.free = DVDNAV_STATUS_OK
      ∧ q.event.stops = false := by
    intro q hq
    obtain ⟨h1, h2, h3⟩ := hpre q hq
    exact ⟨by rw [h1]; exact hok, h2, h3⟩
  have hlast2 : last.result ≠ DVDNAV_STATUS_ERR ∧ last.free = DVDNAV_STATUS_OK
      ∧ last.event.stops = true := ⟨by rw [hlast.1]; exact hok, hlast.2.1, hlast.2.2⟩
  rw [read_header_configured e hopen hra hmenu haudio hspu hpgc, hblocks,
    read_loop_run_to_stop pre rest last hpre2 hlast2 (configured e) rfl]
  have hcalls := foldl_pass_state_calls (pre ++ [last]) (configured e)
  have hpulled : pulled (((pre ++ [last]).foldl pass_state (configured e)).log .finished).calls
      = (pre ++ [last]).map Pull.buf := by
    rw [State.log_calls, hcalls, pulled_append, pulled_passes]
    simp [pulled, configured]
  refine ⟨_, rfl, rfl, by simpa using hcalls, hpulled, ?_⟩
  rw [hpulled]
  simp

/-- C14 at a concrete run: the stop is the third of five answers. -/
theorem events_consumed_in_order_witness :
    ∃ s, read_header (okEngine (sample_head ++ sample_stop :: sample_tail))
        = some (.value 0, s)
      ∧ s = ((sample_head ++ [sample_stop]).foldl pass_state
            (configured (okEngine (sample_head ++ sample_stop :: sample_tail)))).log .finished
      ∧ s.calls = (configured (okEngine (sample_head ++ sample_stop :: sample_tail))).calls
          ++ (sample_head ++ [sample_stop]).flatMap pass_calls
      ∧ pulled s.calls = (sample_head ++ [sample_stop]).map Pull.buf
      ∧ (pulled s.calls).length = sample_head.length + 1 :=
  events_consumed_in_order (okEngine (sample_head ++ sample_stop :: sample_tail))
    sample_head sample_tail sample_stop
    rfl rfl rfl rfl rfl rfl rfl (by decide) (by decide)

/-! ## C16 -/

/-- C16: on `DVDNAV_BLOCK_OK`, `DVDNAV_NOP`, `DVDNAV_SPU_CLUT_CHANGE`,
`DVDNAV_SPU_STREAM_CHANGE`, `DVDNAV_AUDIO_STREAM_CHANGE`, `DVDNAV_HIGHLIGHT` and
`DVDNAV_HOP_CHANNEL` the handler issues no engine call (the record ends with
the pull of the pass), and leaves `width`, `height`, `dump`, `tt_dump` and
`finished` as they were; with the block released successfully, the only call
that follows is that release and `read_header` goes on with the engine's next
answer. -/
theorem passive_events (s : State) (rest : List Pull) (result : Int) (buf : Nat) (ev : Event)
    (hf : s.finished = 0) (hr : result ≠ DVDNAV_STATUS_ERR) (hev : ev.passive = true) :
    ∃ s2, dispatch (s.call (.dvdnav_get_next_cache_block result buf)) ev = some s2
      ∧ s2.calls = s.calls ++ [.dvdnav_get_next_cache_block result buf]
      ∧ s2.width = s.width ∧ s2.height = s.height
      ∧ s2.dump = s.dump ∧ s2.tt_dump = s.tt_dump ∧ s2.finished = s.finished
      ∧ read_loop (⟨result, buf, ev, DVDNAV_STATUS_OK⟩ :: rest) s
          = read_loop rest (s2.call (.dvdnav_free_cache_block buf)) := by
  cases ev <;> simp [Event.passive] at hev <;>
    exact ⟨_, rfl, rfl, rfl, rfl, rfl, rfl, rfl,
      read_loop_pass ⟨result, buf, _, DVDNAV_STATUS_OK⟩ rest s _ hf hr rfl rfl⟩

/-- C16 at a concrete pass: a `DVDNAV_HIGHLIGHT` on a freshly configured session. -/
theorem passive_events_witness :
    ∃ s2, dispatch ((configured (okEngine [])).call (.dvdnav_get_next_cache_block 1 7))
          (.DVDNAV_HIGHLIGHT 2) = some s2
      ∧ s2.calls = (configured (okEngine [])).calls ++ [.dvdnav_get_next_cache_block 1 7]
      ∧ s2.width = (configured (okEngine [])).width
      ∧ s2.height = (configured (okEngine [])).height
      ∧ s2.dump = (configured (okEngine [])).dump
      ∧ s2.tt_dump = (configured (okEngine [])).tt_dump
      ∧ s2.finished = (configured (okEngine [])).finished
      ∧ read_loop (⟨1, 7, .DVDNAV_HIGHLIGHT 2, DVDNAV_STATUS_OK⟩ :: sample_tail)
            (configured (okEngine []))
          = read_loop sample_tail (s2.call (.dvdnav_free_cache_block 7)) :=
  passive_events (configured (okEngine [])) sample_tail 1 7 (.DVDNAV_HIGHLIGHT 2)
    rfl (by decide) rfl

/-! ## C17 -/

/-- C17: the cell policy always includes.  In every state the loop can be in
after any run of passes from the start of the loop, `tt_dump` is 0; and a
`DVDNAV_CELL_CHANGE` handled in such a state leaves `dump = 1` and
`tt_dump = 0` whatever title and part the engine reports, and leaves
`finished` as it was. -/
theorem cell_policy_always_includes (e : Engine) (ps : List Pull) (result : Int) (buf : Nat)
    (title_info tt ptt position pos len : Int) :
    (ps.foldl pass_state (configured e)).tt_dump = 0
      ∧ ∃ s2, dispatch ((ps.foldl pass_state (configured e)).call
              (.dvdnav_get_next_cache_block result buf))
            (.DVDNAV_CELL_CHANGE title_info tt ptt position pos len) = some s2
        ∧ s2.dump = 1 ∧ s2.tt_dump = 0
        ∧ s2.finished = (ps.foldl pass_state (configured e)).finished := by
  have h0 := foldl_pass_state_tt_dump ps (configured e) rfl
  refine ⟨h0, _, rfl, ?_, ?_, rfl⟩
  · simp [h0]
  · simp [h0]

/-! ## C18 -/

/-- C18: with at least one button, the button-choice loop started at
`button = 0` makes exactly one pass (it logs one "Which button" message) and
ends with `button = 1`; the `DVDNAV_NAV_PACKET` handler then passes the index 1
to `dvdnav_button_select_and_activate`, whatever the number of buttons and
their boxes. -/
theorem button_choice_selects_first (s : State) (btn_ns : Nat) (btnit : List btni_t)
    (activate : Int) (logs : List LogMsg) (h : 1 ≤ btn_ns) :
    button_choice (INT_MAX - 0).toNat btn_ns 0 logs
        = some (1, logs ++ [LogMsg.which_button btn_ns])
      ∧ ∃ s2, dispatch s (.DVDNAV_NAV_PACKET btn_ns btnit activate) = some s2
        ∧ s2.calls = s.calls ++ [.dvdnav_get_current_nav_pci, .dvdnav_get_current_nav_dsi,
            .dvdnav_button_select_and_activate 1]
        ∧ s2.logs = s.logs ++ [.found_buttons btn_ns] ++ log_buttons btn_ns btnit
            ++ [.which_button btn_ns, .selecting_button 1] := by
  have hpos : 0 < btn_ns := h
  refine ⟨?_, _, dispatch_nav_packet s btn_ns btnit activate hpos, rfl, rfl⟩
  rw [Int.sub_zero]
  exact button_choice_first btn_ns hpos logs

/-- C18 at a concrete packet: 36 buttons, no boxes given. -/
theorem button_choice_selects_first_witness :
    button_choice (INT_MAX - 0).toNat 36 0 [] = some (1, [] ++ [LogMsg.which_button 36])
      ∧ ∃ s2, dispatch (configured (okEngine [])) (.DVDNAV_NAV_PACKET 36 [] 1) = some s2
        ∧ s2.calls = (configured (okEngine [])).calls ++ [.dvdnav_get_current_nav_pci,
            .dvdnav_get_current_nav_dsi, .dvdnav_button_select_and_activate 1]
        ∧ s2.logs = (configured (okEngine [])).logs ++ [.found_buttons 36]
            ++ log_buttons 36 [] ++ [.which_button 36, .selecting_button 1] :=
  button_choice_selects_first (configured (okEngine [])) 36 [] 1 [] (by decide)

/-! ## C19 -/

/-- C19: when the release at the end of a pass does not return
`DVDNAV_STATUS_OK`, whatever event was handled (`DVDNAV_STOP` or not),
`read_header` logs the error and returns 5 at once: the failing
`dvdnav_free_cache_block` is the last engine call and nothing of what the engine
would answer next is used.  When every pull and release succeeds and the
answers contain a `DVDNAV_STOP`, `read_header` returns 0 with `finished = 1`. -/
theorem release_failure_returns_five (s : State) (p : Pull) (rest ps : List Pull)
    (hf : s.finished = 0) (hr : p.result ≠ DVDNAV_STATUS_ERR)
    (hfree : p.free ≠ DVDNAV_STATUS_OK)
    (hok : ∀ q ∈ ps, q.result = DVDNAV_STATUS_OK ∧ q.free = DVDNAV_STATUS_OK)
    (hstop : ∃ q ∈ ps, q.event = Event.DVDNAV_STOP) :
    (∃ s2, dispatch (s.call (.dvdnav_get_next_cache_block p.result p.buf)) p.event = some s2
      ∧ read_loop (p :: rest) s
          = some (.value 5, (s2.call (.dvdnav_free_cache_block p.buf)).log .error_freeing)
      ∧ ((s2.call (.dvdnav_free_cache_block p.buf)).log .error_freeing).calls
          = s.calls ++ pass_calls p)
    ∧ (∃ s3, read_loop ps s = some (.value 0, s3) ∧ s3.finished = 1) := by
  constructor
  · obtain ⟨s2, hd⟩ := dispatch_total (s.call (.dvdnav_get_next_cache_block p.result p.buf)) p.event
    refine ⟨s2, hd, ?_, ?_⟩
    · simp [read_loop, hf, hr, hd, hfree]
    · simp [dispatch_calls _ _ _ hd, pass_calls]
  · obtain ⟨s3, _, hrun, hfin, _⟩ := read_loop_stop ps hok hstop s hf
    exact ⟨s3, hrun, hfin⟩

/-- C19 at a concrete pass: the release after a `DVDNAV_BLOCK_OK` fails. -/
theorem release_failure_returns_five_witness :
    (∃ s2, dispatch ((configured (okEngine [])).call (.dvdnav_get_next_cache_block
            (⟨1, 7, .DVDNAV_BLOCK_OK, 0⟩ : Pull).result (⟨1, 7, .DVDNAV_BLOCK_OK, 0⟩ : Pull).buf))
          (⟨1, 7, .DVDNAV_BLOCK_OK, 0⟩ : Pull).event = some s2
      ∧ read_loop (⟨1, 7, .DVDNAV_BLOCK_OK, 0⟩ :: sample_tail) (configured (okEngine []))
          = some (.value 5, (s2.call (.dvdnav_free_cache_block
              (⟨1, 7, .DVDNAV_BLOCK_OK, 0⟩ : Pull).buf)).log .error_freeing)
      ∧ ((s2.call (.dvdnav_free_cache_block
              (⟨1, 7, .DVDNAV_BLOCK_OK, 0⟩ : Pull).buf)).log .error_freeing).calls
          = (configured (okEngine [])).calls ++ pass_calls ⟨1, 7, .DVDNAV_BLOCK_OK, 0⟩)
    ∧ (∃ s3, read_loop sample_tail (configured (okEngine [])) = some (.value 0, s3)
        ∧ s3.finished = 1) :=
  release_failure_returns_five (configured (okEngine [])) ⟨1, 7, .DVDNAV_BLOCK_OK, 0⟩
    sample_tail sample_tail rfl (by decide) (by decide) (by decide) (by decide)

end DvdDec
